import Mathlib

/-!
Verification of the matching / merging / conflict-resolution core of the
personal-health-ledger repository, as a shallow embedding in Lean 4.

Conventions of the embedding:
* Timezone-aware instants are modelled as integer epoch seconds (`ℤ`); the
  microsecond component of Python datetimes plays no role in the verified
  claims.
* Python `float` measurement values are modelled as rationals (`ℚ`);
  the claims under study concern tolerance comparisons and control flow,
  not binary floating-point rounding.
* Python `None` becomes `Option.none`; raised exceptions become
  `Except.error` carrying the exception message.
* `hashlib.new(algorithm)` digests are modelled by an abstract digest
  function `hashAlg : String → String` stored in the configuration: every
  claim about record ids concerns determinism of the pre-hash string, and a
  fixed function of that string preserves exactly that structure.
* Python dicts keyed by strings become association lists in insertion
  order; Python sets of source types become deduplicated lists (the only
  observation the code makes of those sets is membership and a sorted
  listing of a two-valued enum, both order-insensitive).
-/

namespace PHL

deriving instance DecidableEq for Except

/-- `SourceType` from domain/weight.py: the two fixed source kinds. -/
inductive SourceType where
  | csv
  | fit
deriving DecidableEq, Repr

/-- The string value of a `SourceType` (the enum is a `str` enum in Python). -/
def SourceType.value : SourceType → String
  | .csv => "csv"
  | .fit => "fit"

/-- `FieldSource` from domain/weight.py: provenance tags for merged fields. -/
inductive FieldSource where
  | csv
  | fit
  | merged
  | conflict
deriving DecidableEq, Repr

/-- `RawWeightRecord` from domain/weight.py: one raw per-source record. -/
structure RawWeightRecord where
  timestamp : ℤ
  weight_kg : Option ℚ := none
  body_fat_pct : Option ℚ := none
  fat_mass_kg : Option ℚ := none
  fat_free_pct : Option ℚ := none
  fat_free_mass_kg : Option ℚ := none
  skeletal_muscle_pct : Option ℚ := none
  skeletal_muscle_mass_kg : Option ℚ := none
  muscle_pct : Option ℚ := none
  muscle_mass_kg : Option ℚ := none
  bone_mass_kg : Option ℚ := none
  body_water : Option ℚ := none
  bmr_kcal : Option ℚ := none
  metabolic_age : Option ℚ := none
  visceral_fat_rating : Option ℚ := none
  source_file_name : String
  source_file_id : String
  source_type : SourceType
deriving DecidableEq, Repr

/-- `RecordIDConfig` from utils/parameters.py.  The configured digest
algorithm is modelled as the abstract digest function it denotes. -/
structure RecordIDConfig where
  hashAlg : String → String
  timestamp_rounding_seconds : ℤ
  include_fields : List String

/-- `ConflictResolutionConfig` from utils/parameters.py. -/
structure ConflictResolutionConfig where
  default_preference : Option String
  field_preferences : List (String × String)

/-- `ProcessingConfig` from utils/parameters.py (the fields the core reads). -/
structure ProcessingConfig where
  timezone : String
  timestamp_tolerance_seconds : ℤ
  numeric_tolerance : ℚ
  record_id : RecordIDConfig
  conflict_resolution : ConflictResolutionConfig

/-- `timestamps_match` from utils/timezone_utils.py:
true iff the absolute difference is at most the tolerance. -/
def timestampsMatch (ts1 ts2 tolerance_seconds : ℤ) : Bool :=
  decide (|ts1 - ts2| ≤ tolerance_seconds)

/-- `round_timestamp` from utils/hashing.py: Python floor division `//`
of the epoch seconds by the bucket, scaled back up. -/
def roundTimestamp (timestamp rounding_seconds : ℤ) : ℤ :=
  (Int.fdiv timestamp rounding_seconds) * rounding_seconds

/-- The `f-string` three-decimal rendering of the weight in
`generate_record_id`, abstracted to a fixed injective-on-thousandths
function of the rational value; only its determinism matters to the claims. -/
def formatWeight3 (w : ℚ) : String :=
  toString (round (w * 1000) : ℤ)

/-- The sorted list of distinct source-kind string values, as computed by
`sorted([st.value for st in source_types])` over a Python set.  Since the
enum has exactly the two values "csv" < "fit", sorting the distinct values
present is the same as listing csv-membership then fit-membership. -/
def sortedTypeValues (source_types : List SourceType) : List String :=
  (if SourceType.csv ∈ source_types then ["csv"] else []) ++
  (if SourceType.fit ∈ source_types then ["fit"] else [])

/-- `generate_record_id` from utils/hashing.py. -/
def generateRecordId (config : RecordIDConfig) (timestamp : ℤ) (weight_kg : ℚ)
    (source_types : List SourceType) : String :=
  let rounded_ts := roundTimestamp timestamp config.timestamp_rounding_seconds
  let hash_data : List String :=
    (if "timestamp" ∈ config.include_fields then [toString rounded_ts] else []) ++
    (if "weight_kg" ∈ config.include_fields then [formatWeight3 weight_kg] else []) ++
    (if "source_types" ∈ config.include_fields then
      [String.intercalate "," (sortedTypeValues source_types)] else [])
  config.hashAlg (String.intercalate "|" hash_data)

/-- `csv_data.weight_kg if csv_data else None`: the per-source optional field
read used throughout `_merge_records`.  (Kept as a separate function so the
code generator does not duplicate the continuation for every read.) -/
@[noinline] def getOpt (d : Option RawWeightRecord) (f : RawWeightRecord → Option ℚ) :
    Option ℚ :=
  d.bind f

/-- First-match association-list lookup, modelling Python `dict.get` over the
string-keyed preference table (dict keys are unique, so first match is the
binding). -/
def lookupPref : List (String × String) → String → Option String
  | [], _ => none
  | (k, v) :: rest, key => if k = key then some v else lookupPref rest key

/-- The preference resolved for a field:
`field_preferences.get(field_name, default_preference)`. -/
def prefOf (config : ProcessingConfig) (field_name : String) : Option String :=
  match lookupPref config.conflict_resolution.field_preferences field_name with
  | some p => some p
  | none => config.conflict_resolution.default_preference

/-- `ConsolidationService._merge_field` from services/consolidation.py. -/
def mergeField (config : ProcessingConfig) (csv_value fit_value : Option ℚ)
    (field_name : String) : Option ℚ × FieldSource × Bool :=
  match csv_value, fit_value with
  | none, none => (none, FieldSource.merged, false)
  | none, some fv => (some fv, FieldSource.fit, false)
  | some cv, none => (some cv, FieldSource.csv, false)
  | some cv, some fv =>
    if |cv - fv| ≤ config.numeric_tolerance then
      (some cv, FieldSource.merged, false)
    else
      let preference := prefOf config field_name
      if preference = some "csv" then (some cv, FieldSource.conflict, true)
      else if preference = some "fit" then (some fv, FieldSource.conflict, true)
      else (some cv, FieldSource.conflict, true)

/-- `WeightMeasurement` from domain/weight.py: the canonical measurement. -/
structure WeightMeasurement where
  record_id : String
  timestamp : ℤ
  weight_kg : Option ℚ
  body_fat_pct : Option ℚ
  fat_mass_kg : Option ℚ
  fat_free_pct : Option ℚ
  fat_free_mass_kg : Option ℚ
  skeletal_muscle_pct : Option ℚ
  skeletal_muscle_mass_kg : Option ℚ
  muscle_pct : Option ℚ
  muscle_mass_kg : Option ℚ
  bone_mass_kg : Option ℚ
  body_water : Option ℚ
  bmr_kcal : Option ℚ
  metabolic_age : Option ℚ
  visceral_fat_rating : Option ℚ
  source_files : List String
  source_types : List SourceType
  drive_file_ids : List String
  ingestion_timestamp : ℤ
  field_sources : List (String × FieldSource)
  conflicting_fields : List String
  chosen_source : Option SourceType
  weight_kg_csv : Option ℚ
  weight_kg_fit : Option ℚ
  body_fat_pct_csv : Option ℚ
  body_fat_pct_fit : Option ℚ
deriving DecidableEq, Repr, Inhabited

/-- Assembly of the `WeightMeasurement` literal built at the end of
`ConsolidationService._merge_records`, factored out of `mergeRecords` with the
per-field merge results passed as plain arguments (`wm` = weight, `bm` = body
fat, then the remaining twelve fields in source order).  `csv_w`, `fit_w`,
`csv_bf`, `fit_bf` are the raw per-source weight and body-fat values used by
the conditional audit-column assignments after construction. -/
def buildMeasurement (now timestamp : ℤ) (source_files : List String)
    (source_types : List SourceType) (drive_file_ids : List String)
    (csv_w fit_w csv_bf fit_bf : Option ℚ)
    (wm bm fm ffp ffm smp smm mp mm bom bw bmr ma vfr : Option ℚ × FieldSource × Bool)
    (record_id : String) (w : ℚ) : WeightMeasurement :=
  let conflicting_fields :=
    (if wm.2.2 then ["weight_kg"] else []) ++ (if bm.2.2 then ["body_fat_pct"] else [])
  { record_id := record_id
    timestamp := timestamp
    weight_kg := some w
    body_fat_pct := bm.1
    fat_mass_kg := fm.1
    fat_free_pct := ffp.1
    fat_free_mass_kg := ffm.1
    skeletal_muscle_pct := smp.1
    skeletal_muscle_mass_kg := smm.1
    muscle_pct := mp.1
    muscle_mass_kg := mm.1
    bone_mass_kg := bom.1
    body_water := bw.1
    bmr_kcal := bmr.1
    metabolic_age := ma.1
    visceral_fat_rating := vfr.1
    source_files := source_files
    source_types := source_types
    drive_file_ids := drive_file_ids
    ingestion_timestamp := now
    field_sources :=
      [("weight_kg", wm.2.1), ("body_fat_pct", bm.2.1), ("fat_mass_kg", fm.2.1),
       ("fat_free_pct", ffp.2.1), ("fat_free_mass_kg", ffm.2.1),
       ("skeletal_muscle_pct", smp.2.1), ("skeletal_muscle_mass_kg", smm.2.1),
       ("muscle_pct", mp.2.1), ("muscle_mass_kg", mm.2.1), ("bone_mass_kg", bom.2.1),
       ("body_water", bw.2.1), ("bmr_kcal", bmr.2.1), ("metabolic_age", ma.2.1),
       ("visceral_fat_rating", vfr.2.1)]
    conflicting_fields := conflicting_fields
    chosen_source := none
    weight_kg_csv :=
      if conflicting_fields ≠ [] then
        (if "weight_kg" ∈ conflicting_fields then csv_w else none)
      else none
    weight_kg_fit :=
      if conflicting_fields ≠ [] then
        (if "weight_kg" ∈ conflicting_fields then fit_w else none)
      else none
    body_fat_pct_csv :=
      if conflicting_fields ≠ [] then
        (if "body_fat_pct" ∈ conflicting_fields then csv_bf else none)
      else none
    body_fat_pct_fit :=
      if conflicting_fields ≠ [] then
        (if "body_fat_pct" ∈ conflicting_fields then fit_bf else none)
      else none }

/-- `ConsolidationService._merge_records` from services/consolidation.py.
`now` is the wall-clock instant `datetime.now(timezone.utc)` observed at the
call, threaded in explicitly to keep the embedding pure.  A raised
`ConsolidationError` (or the `IndexError` of indexing an empty record list)
becomes `Except.error` with the exception message. -/
def mergeRecords (config : ProcessingConfig) (now : ℤ)
    (csv_records fit_records : List RawWeightRecord) :
    Except String WeightMeasurement :=
  let all_records := csv_records ++ fit_records
  match all_records with
  | [] => Except.error "list index out of range"
  | first :: _ =>
    let timestamp := first.timestamp
    let source_files := all_records.map (fun r => r.source_file_name)
    let drive_file_ids := all_records.map (fun r => r.source_file_id)
    let source_types := (all_records.map (fun r => r.source_type)).dedup
    let csv_data := csv_records.head?
    let fit_data := fit_records.head?
    let wm := mergeField config (getOpt csv_data (fun r => r.weight_kg))
      (getOpt fit_data (fun r => r.weight_kg)) "weight_kg"
    let bm := mergeField config (getOpt csv_data (fun r => r.body_fat_pct))
      (getOpt fit_data (fun r => r.body_fat_pct)) "body_fat_pct"
    let fm := mergeField config (getOpt csv_data (fun r => r.fat_mass_kg))
      (getOpt fit_data (fun r => r.fat_mass_kg)) "fat_mass_kg"
    let ffp := mergeField config (getOpt csv_data (fun r => r.fat_free_pct))
      (getOpt fit_data (fun r => r.fat_free_pct)) "fat_free_pct"
    let ffm := mergeField config (getOpt csv_data (fun r => r.fat_free_mass_kg))
      (getOpt fit_data (fun r => r.fat_free_mass_kg)) "fat_free_mass_kg"
    let smp := mergeField config (getOpt csv_data (fun r => r.skeletal_muscle_pct))
      (getOpt fit_data (fun r => r.skeletal_muscle_pct)) "skeletal_muscle_pct"
    let smm := mergeField config (getOpt csv_data (fun r => r.skeletal_muscle_mass_kg))
      (getOpt fit_data (fun r => r.skeletal_muscle_mass_kg)) "skeletal_muscle_mass_kg"
    let mp := mergeField config (getOpt csv_data (fun r => r.muscle_pct))
      (getOpt fit_data (fun r => r.muscle_pct)) "muscle_pct"
    let mm := mergeField config (getOpt csv_data (fun r => r.muscle_mass_kg))
      (getOpt fit_data (fun r => r.muscle_mass_kg)) "muscle_mass_kg"
    let bom := mergeField config (getOpt csv_data (fun r => r.bone_mass_kg))
      (getOpt fit_data (fun r => r.bone_mass_kg)) "bone_mass_kg"
    let bw := mergeField config (getOpt csv_data (fun r => r.body_water))
      (getOpt fit_data (fun r => r.body_water)) "body_water"
    let bmr := mergeField config (getOpt csv_data (fun r => r.bmr_kcal))
      (getOpt fit_data (fun r => r.bmr_kcal)) "bmr_kcal"
    let ma := mergeField config (getOpt csv_data (fun r => r.metabolic_age))
      (getOpt fit_data (fun r => r.metabolic_age)) "metabolic_age"
    let vfr := mergeField config (getOpt csv_data (fun r => r.visceral_fat_rating))
      (getOpt fit_data (fun r => r.visceral_fat_rating)) "visceral_fat_rating"
    match wm.1 with
    | none => Except.error "Cannot consolidate record without weight_kg"
    | some w =>
      Except.ok (buildMeasurement now timestamp source_files source_types drive_file_ids
        (getOpt csv_data (fun r => r.weight_kg)) (getOpt fit_data (fun r => r.weight_kg))
        (getOpt csv_data (fun r => r.body_fat_pct)) (getOpt fit_data (fun r => r.body_fat_pct))
        wm bm fm ffp ffm smp smm mp mm bom bw bmr ma vfr
        (generateRecordId config.record_id timestamp w source_types) w)

/-- One step of the `defaultdict(list)` grouping by exact timestamp used in
`consolidate`: append the record to its timestamp group, creating the group at
the end on first sight (Python dicts preserve insertion order). -/
def insertGrouped (acc : List (ℤ × List RawWeightRecord)) (r : RawWeightRecord) :
    List (ℤ × List RawWeightRecord) :=
  if acc.any (fun p => p.1 = r.timestamp) then
    acc.map (fun p => if p.1 = r.timestamp then (p.1, p.2 ++ [r]) else p)
  else acc ++ [(r.timestamp, [r])]

/-- The `csv_by_timestamp` / `fit_by_timestamp` grouping loops of
`ConsolidationService.consolidate`. -/
def groupByTimestamp (records : List RawWeightRecord) : List (ℤ × List RawWeightRecord) :=
  records.foldl insertGrouped []

/-- The CSV-side timestamp groups of a raw-record list, in first-occurrence
order: `csv_by_timestamp` in `consolidate`. -/
def csvGroupsOf (raw_records : List RawWeightRecord) : List (ℤ × List RawWeightRecord) :=
  groupByTimestamp (raw_records.filter (fun r => r.source_type = SourceType.csv))

/-- The FIT-side timestamp groups of a raw-record list, in first-occurrence
order: `fit_by_timestamp` in `consolidate`. -/
def fitGroupsOf (raw_records : List RawWeightRecord) : List (ℤ × List RawWeightRecord) :=
  groupByTimestamp (raw_records.filter (fun r => r.source_type = SourceType.fit))

/-- `matched_fit_recs` for one CSV timestamp group in `consolidate`: every
record of every FIT group whose timestamp matches within tolerance, in FIT
group iteration order. -/
def matchedFitRecs (config : ProcessingConfig)
    (fitGroups : List (ℤ × List RawWeightRecord)) (csv_ts : ℤ) :
    List RawWeightRecord :=
  ((fitGroups.filter
      (fun p => timestampsMatch csv_ts p.1 config.timestamp_tolerance_seconds)).map
    Prod.snd).flatten

/-- The main loop of `consolidate` over CSV timestamp groups: each group is
merged with its within-tolerance FIT records; the first raised
`ConsolidationError` escapes the loop. -/
def mergeCsvGroups (config : ProcessingConfig) (now : ℤ)
    (fitGroups : List (ℤ × List RawWeightRecord)) :
    List (ℤ × List RawWeightRecord) → Except String (List WeightMeasurement)
  | [] => Except.ok []
  | (ts, recs) :: rest =>
    match mergeRecords config now recs (matchedFitRecs config fitGroups ts) with
    | Except.error e => Except.error e
    | Except.ok m =>
      match mergeCsvGroups config now fitGroups rest with
      | Except.error e => Except.error e
      | Except.ok ms => Except.ok (m :: ms)

/-- The FIT groups never added to `matched_fit_timestamps`: those whose
timestamp matches no CSV group (group keys are distinct, so the Python
membership test on the timestamp set coincides with this filter). -/
def unmatchedFitGroups (config : ProcessingConfig)
    (csvGroups fitGroups : List (ℤ × List RawWeightRecord)) :
    List (ℤ × List RawWeightRecord) :=
  fitGroups.filter (fun p =>
    !(csvGroups.any (fun c => timestampsMatch c.1 p.1 config.timestamp_tolerance_seconds)))

/-- The second loop of `consolidate`: a FIT-only measurement per unmatched FIT
group; the first raised `ConsolidationError` escapes the loop. -/
def mergeFitGroups (config : ProcessingConfig) (now : ℤ) :
    List (ℤ × List RawWeightRecord) → Except String (List WeightMeasurement)
  | [] => Except.ok []
  | (_, recs) :: rest =>
    match mergeRecords config now [] recs with
    | Except.error e => Except.error e
    | Except.ok m =>
      match mergeFitGroups config now rest with
      | Except.error e => Except.error e
      | Except.ok ms => Except.ok (m :: ms)

/-- Stable insertion of a measurement into a list sorted by timestamp: the new
element goes before the first strictly-later element, after equal timestamps
already present when inserting right-to-left (see `sortByTimestamp`). -/
def insertByTs (m : WeightMeasurement) : List WeightMeasurement → List WeightMeasurement
  | [] => [m]
  | x :: xs =>
    if x.timestamp < m.timestamp then x :: insertByTs m xs else m :: x :: xs

/-- `consolidated.sort(key=lambda m: m.timestamp)`: Python list.sort is a
stable sort by timestamp; this stable insertion sort computes the same
list. -/
def sortByTimestamp : List WeightMeasurement → List WeightMeasurement
  | [] => []
  | x :: xs => insertByTs x (sortByTimestamp xs)

/-- `ConsolidationService.consolidate` from services/consolidation.py.  The
outer `try/except` re-raises any exception as
`ConsolidationError("Consolidation failed: " + message)`. -/
def consolidate (config : ProcessingConfig) (now : ℤ)
    (raw_records : List RawWeightRecord) : Except String (List WeightMeasurement) :=
  let csvGroups := csvGroupsOf raw_records
  let fitGroups := fitGroupsOf raw_records
  match mergeCsvGroups config now fitGroups csvGroups with
  | Except.error e => Except.error ("Consolidation failed: " ++ e)
  | Except.ok ms1 =>
    match mergeFitGroups config now (unmatchedFitGroups config csvGroups fitGroups) with
    | Except.error e => Except.error ("Consolidation failed: " ++ e)
    | Except.ok ms2 => Except.ok (sortByTimestamp (ms1 ++ ms2))

/-! ### Comparison service (`ComparisonService._compare_pair`) -/

/-- The mutable per-pair counters of `ComparisonResult` that
`_compare_pair`'s matching loop updates, plus the local loop state
(`matched_fit_indices`, `weight_differences`). -/
structure CompareState where
  both_count : ℕ
  csv_only_count : ℕ
  mismatches : List (String × ℕ)
  weight_differences : List ℚ
  matched_fit_indices : List ℕ
deriving DecidableEq, Repr

/-- `defaultdict(int)` increment: bump the counter for a key, creating it at 1
if absent (keys are unique by construction). -/
def bump : List (String × ℕ) → String → List (String × ℕ)
  | [], key => [(key, 1)]
  | (k, n) :: rest, key =>
    if k = key then (k, n + 1) :: rest else (k, n) :: bump rest key

/-- Read a counter with default 0, as `dict(self.mismatches)` exposes it. -/
def countOf : List (String × ℕ) → String → ℕ
  | [], _ => 0
  | (k, n) :: rest, key => if k = key then n else countOf rest key

/-- The four non-weight fields compared per matched pair in `_compare_pair`,
with their accessors, in source order. -/
def comparedFields : List (String × (RawWeightRecord → Option ℚ)) :=
  [("body_fat_pct", fun r => r.body_fat_pct),
   ("fat_mass_kg", fun r => r.fat_mass_kg),
   ("fat_free_pct", fun r => r.fat_free_pct),
   ("fat_free_mass_kg", fun r => r.fat_free_mass_kg)]

/-- One field comparison of the `for field in [...]` loop of `_compare_pair`:
both values non-absent and beyond tolerance increments the field's mismatch
counter. -/
def compareFieldStep (config : ProcessingConfig) (csv_record fit_record : RawWeightRecord)
    (ms : List (String × ℕ)) (p : String × (RawWeightRecord → Option ℚ)) :
    List (String × ℕ) :=
  match p.2 csv_record, p.2 fit_record with
  | some a, some b =>
    if |a - b| > config.numeric_tolerance then bump ms p.1 else ms
  | _, _ => ms

/-- The truthiness-guarded weight comparison of `_compare_pair`:
`if csv_record.weight_kg and fit_record.weight_kg` runs the weight difference
only when both weights are present and nonzero (Python truthiness on floats),
appending the absolute difference and bumping the weight mismatch counter
beyond tolerance. -/
def weightCompare (config : ProcessingConfig) (csv_record fit_record : RawWeightRecord)
    (wd : List ℚ) (ms : List (String × ℕ)) : List ℚ × List (String × ℕ) :=
  match csv_record.weight_kg, fit_record.weight_kg with
  | some a, some b =>
    if a ≠ 0 ∧ b ≠ 0 then
      let diff := |a - b|
      (wd ++ [diff],
       if diff > config.numeric_tolerance then bump ms "weight_kg" else ms)
    else (wd, ms)
  | _, _ => (wd, ms)

/-- The body of `_compare_pair` run when a CSV record accepts its first
matching FIT record (`fit_idx`): count the match, record the index, do the
truthiness-guarded weight comparison, then the four `is not None`-guarded
field comparisons. -/
def applyMatched (config : ProcessingConfig) (csv_record fit_record : RawWeightRecord)
    (st : CompareState) (fit_idx : ℕ) : CompareState :=
  let wd_ms := weightCompare config csv_record fit_record
    st.weight_differences st.mismatches
  { both_count := st.both_count + 1
    csv_only_count := st.csv_only_count
    mismatches := comparedFields.foldl (compareFieldStep config csv_record fit_record) wd_ms.2
    weight_differences := wd_ms.1
    matched_fit_indices :=
      if fit_idx ∈ st.matched_fit_indices then st.matched_fit_indices
      else st.matched_fit_indices ++ [fit_idx] }

/-- The inner `for fit_idx, fit_record in enumerate(fit_records)` scan:
the first FIT record within tolerance, with its index. -/
def firstMatch (config : ProcessingConfig) (csv_ts : ℤ) :
    List RawWeightRecord → ℕ → Option (ℕ × RawWeightRecord)
  | [], _ => none
  | f :: rest, i =>
    if timestampsMatch csv_ts f.timestamp config.timestamp_tolerance_seconds then
      some (i, f)
    else firstMatch config csv_ts rest (i + 1)

/-- One iteration of the outer CSV loop of `_compare_pair`: accept the first
matching FIT record or count the CSV record as csv-only. -/
def compareStepCsv (config : ProcessingConfig) (fit_records : List RawWeightRecord)
    (st : CompareState) (csv_record : RawWeightRecord) : CompareState :=
  match firstMatch config csv_record.timestamp fit_records 0 with
  | none => { st with csv_only_count := st.csv_only_count + 1 }
  | some (i, f) => applyMatched config csv_record f st i

/-- `ComparisonResult` counters produced by `_compare_pair` (the audit
statistics; file names and drive ids are carried through unchanged and play
no role in the claims under study). -/
structure ComparisonResult where
  csv_only_count : ℕ
  fit_only_count : ℕ
  both_count : ℕ
  mismatches : List (String × ℕ)
  csv_min_timestamp : Option ℤ
  csv_max_timestamp : Option ℤ
  fit_min_timestamp : Option ℤ
  fit_max_timestamp : Option ℤ
  weight_mae : Option ℚ
deriving DecidableEq, Repr

/-- `min(timestamps)` over a possibly-empty record list, `None` when empty. -/
def optMinTs (records : List RawWeightRecord) : Option ℤ :=
  records.foldl (fun acc r =>
    match acc with
    | none => some r.timestamp
    | some m => some (min m r.timestamp)) none

/-- `max(timestamps)` over a possibly-empty record list, `None` when empty. -/
def optMaxTs (records : List RawWeightRecord) : Option ℤ :=
  records.foldl (fun acc r =>
    match acc with
    | none => some r.timestamp
    | some m => some (max m r.timestamp)) none

/-- `ComparisonService._compare_pair` from services/comparison.py. -/
def comparePair (config : ProcessingConfig)
    (csv_records fit_records : List RawWeightRecord) : ComparisonResult :=
  let st := csv_records.foldl (compareStepCsv config fit_records)
    { both_count := 0, csv_only_count := 0, mismatches := [],
      weight_differences := [], matched_fit_indices := [] }
  { csv_only_count := st.csv_only_count
    fit_only_count :=
      ((List.range fit_records.length).filter
        (fun i => !(i ∈ st.matched_fit_indices : Bool))).length
    both_count := st.both_count
    mismatches := st.mismatches
    csv_min_timestamp := optMinTs csv_records
    csv_max_timestamp := optMaxTs csv_records
    fit_min_timestamp := optMinTs fit_records
    fit_max_timestamp := optMaxTs fit_records
    weight_mae :=
      if st.weight_differences = [] then none
      else some (st.weight_differences.sum / st.weight_differences.length) }

/-! ### Field table (for stating the conflicting-fields claim) -/

/-- The fourteen numeric measurement field names, in the order
`_merge_records` merges them. -/
def fieldNames : List String :=
  ["weight_kg", "body_fat_pct", "fat_mass_kg", "fat_free_pct", "fat_free_mass_kg",
   "skeletal_muscle_pct", "skeletal_muscle_mass_kg", "muscle_pct", "muscle_mass_kg",
   "bone_mass_kg", "body_water", "bmr_kcal", "metabolic_age", "visceral_fat_rating"]

/-- Accessor for a numeric measurement field of a raw record by name. -/
def getField (name : String) (r : RawWeightRecord) : Option ℚ :=
  if name = "weight_kg" then r.weight_kg
  else if name = "body_fat_pct" then r.body_fat_pct
  else if name = "fat_mass_kg" then r.fat_mass_kg
  else if name = "fat_free_pct" then r.fat_free_pct
  else if name = "fat_free_mass_kg" then r.fat_free_mass_kg
  else if name = "skeletal_muscle_pct" then r.skeletal_muscle_pct
  else if name = "skeletal_muscle_mass_kg" then r.skeletal_muscle_mass_kg
  else if name = "muscle_pct" then r.muscle_pct
  else if name = "muscle_mass_kg" then r.muscle_mass_kg
  else if name = "bone_mass_kg" then r.bone_mass_kg
  else if name = "body_water" then r.body_water
  else if name = "bmr_kcal" then r.bmr_kcal
  else if name = "metabolic_age" then r.metabolic_age
  else r.visceral_fat_rating

/-- Effectful map over a list in `Except`, stopping at the first error: the
common recursion scheme of `mergeCsvGroups` and `mergeFitGroups`, used to
reason about the two group passes uniformly. -/
def collectE {α β : Type} (f : α → Except String β) : List α → Except String (List β)
  | [] => Except.ok []
  | a :: as =>
    match f a with
    | Except.error e => Except.error e
    | Except.ok b =>
      match collectE f as with
      | Except.error e => Except.error e
      | Except.ok bs => Except.ok (b :: bs)

/-- The combination of the two group-pass results at the end of
`consolidate`: first error wins, prefixed like the outer exception handler;
joint success sorts the concatenated measurements. -/
def combineRes (a b : Except String (List WeightMeasurement)) :
    Except String (List WeightMeasurement) :=
  match a with
  | Except.error e => Except.error ("Consolidation failed: " ++ e)
  | Except.ok ms1 =>
    match b with
    | Except.error e => Except.error ("Consolidation failed: " ++ e)
    | Except.ok ms2 => Except.ok (sortByTimestamp (ms1 ++ ms2))

/-! ### Concrete fixtures (configurations and records used by witnesses and
counterexamples).  `cfgStd` mirrors the configuration of the repository's unit
tests: tolerance 60 s, numeric tolerance 0.001, sha256 record ids over all
three id fields, no conflict preference. -/

/-- Test configuration, as in tests/test_consolidation.py (the digest function
is modelled as the identity on the pre-hash string). -/
def cfgStd : ProcessingConfig :=
  { timezone := "America/Santiago"
    timestamp_tolerance_seconds := 60
    numeric_tolerance := 1/1000
    record_id := { hashAlg := id, timestamp_rounding_seconds := 60,
                   include_fields := ["timestamp", "weight_kg", "source_types"] }
    conflict_resolution := { default_preference := none, field_preferences := [] } }

/-- `cfgStd` with a csv default conflict preference. -/
def cfgPrefCsv : ProcessingConfig :=
  { cfgStd with conflict_resolution :=
      { default_preference := some "csv", field_preferences := [] } }

/-- CSV record at instant 0 with weight 75.5 and body fat 18.2. -/
def rcConf : RawWeightRecord :=
  { timestamp := 0, weight_kg := some (151/2), body_fat_pct := some (91/5),
    source_file_name := "test.csv", source_file_id := "file1",
    source_type := SourceType.csv }

/-- FIT record at instant 0 with weight 76.0 and body fat 18.5 (conflicts
with `rcConf` at tolerance 0.001). -/
def rfConf : RawWeightRecord :=
  { timestamp := 0, weight_kg := some 76, body_fat_pct := some (37/2),
    source_file_name := "test.fit", source_file_id := "file2",
    source_type := SourceType.fit }

/-- CSV record whose weight agrees with `rfFat` but whose fat mass (10)
conflicts with `rfFat`'s fat mass (20). -/
def rcFat : RawWeightRecord :=
  { timestamp := 0, weight_kg := some (151/2), fat_mass_kg := some 10,
    source_file_name := "fat.csv", source_file_id := "file3",
    source_type := SourceType.csv }

/-- FIT record whose weight agrees with `rcFat` but whose fat mass conflicts. -/
def rfFat : RawWeightRecord :=
  { timestamp := 0, weight_kg := some (151/2), fat_mass_kg := some 20,
    source_file_name := "fat.fit", source_file_id := "file4",
    source_type := SourceType.fit }

/-- A CSV record that merges successfully on its own. -/
def rcGood : RawWeightRecord :=
  { timestamp := 0, weight_kg := some (151/2),
    source_file_name := "good.csv", source_file_id := "file5",
    source_type := SourceType.csv }

/-- A CSV record far from every other timestamp and with no weight: its group
cannot be consolidated. -/
def rcNoWeight : RawWeightRecord :=
  { timestamp := 1000, weight_kg := none, body_fat_pct := some 20,
    source_file_name := "bad.csv", source_file_id := "file6",
    source_type := SourceType.csv }

/-- CSV record at instant 0 with weight 70 (shares its exact timestamp with
`rcDup80`). -/
def rcDup70 : RawWeightRecord :=
  { timestamp := 0, weight_kg := some 70,
    source_file_name := "dup70.csv", source_file_id := "file7",
    source_type := SourceType.csv }

/-- CSV record at instant 0 with weight 80 (shares its exact timestamp with
`rcDup70`). -/
def rcDup80 : RawWeightRecord :=
  { timestamp := 0, weight_kg := some 80,
    source_file_name := "dup80.csv", source_file_id := "file8",
    source_type := SourceType.csv }

/-- FIT record at instant 30 (within 60 s of instant 0). -/
def rfNear : RawWeightRecord :=
  { timestamp := 30, weight_kg := some 76,
    source_file_name := "near.fit", source_file_id := "file9",
    source_type := SourceType.fit }

/-- Second CSV record at instant 50 (also within 60 s of `rfNear`). -/
def rcLater : RawWeightRecord :=
  { timestamp := 50, weight_kg := some 71,
    source_file_name := "later.csv", source_file_id := "file10",
    source_type := SourceType.csv }

/-! ### The claims under test, stated as propositions where the claim needs
to be refuted (corrected claims).  Each is a direct formalisation of the
claim text over the embedded code. -/

/-- Claim C1 as stated: for every consolidated measurement and every one of
the fourteen numeric fields, the field is listed in `conflicting_fields` iff
both sources supplied a value and the values differ beyond tolerance. -/
def C1Claim : Prop :=
  ∀ (config : ProcessingConfig) (now : ℤ) (csvR fitR : List RawWeightRecord)
    (m : WeightMeasurement), mergeRecords config now csvR fitR = Except.ok m →
    ∀ fname ∈ fieldNames,
      (fname ∈ m.conflicting_fields ↔
        ∃ x y, getOpt csvR.head? (getField fname) = some x ∧
          getOpt fitR.head? (getField fname) = some y ∧
          |x - y| > config.numeric_tolerance)

/-- Claim C2 as stated (its load-bearing consequence): if at least one CSV
timestamp group merges to a valid measurement, `consolidate` still succeeds,
the failing groups being merely excluded. -/
def C2Claim : Prop :=
  ∀ (config : ProcessingConfig) (now : ℤ) (raw : List RawWeightRecord),
    (∃ p ∈ csvGroupsOf raw, ∃ m,
      mergeRecords config now p.2 (matchedFitRecs config (fitGroupsOf raw) p.1) =
        Except.ok m) →
    ∃ out, consolidate config now raw = Except.ok out

/-- Claim C4 as stated: `consolidate` never returns an empty list without
error. -/
def C4Claim : Prop :=
  ∀ (config : ProcessingConfig) (now : ℤ) (raw : List RawWeightRecord)
    (out : List WeightMeasurement),
    consolidate config now raw = Except.ok out → out ≠ []

/-- Equality of canonical measurements up to the internal ordering of the
list-valued lineage fields (`source_files`, `source_types`,
`drive_file_ids`), as the determinism claim allows. -/
def measEquiv (m1 m2 : WeightMeasurement) : Prop :=
  m1.record_id = m2.record_id ∧ m1.timestamp = m2.timestamp ∧
  m1.weight_kg = m2.weight_kg ∧ m1.body_fat_pct = m2.body_fat_pct ∧
  m1.fat_mass_kg = m2.fat_mass_kg ∧ m1.fat_free_pct = m2.fat_free_pct ∧
  m1.fat_free_mass_kg = m2.fat_free_mass_kg ∧
  m1.skeletal_muscle_pct = m2.skeletal_muscle_pct ∧
  m1.skeletal_muscle_mass_kg = m2.skeletal_muscle_mass_kg ∧
  m1.muscle_pct = m2.muscle_pct ∧ m1.muscle_mass_kg = m2.muscle_mass_kg ∧
  m1.bone_mass_kg = m2.bone_mass_kg ∧ m1.body_water = m2.body_water ∧
  m1.bmr_kcal = m2.bmr_kcal ∧ m1.metabolic_age = m2.metabolic_age ∧
  m1.visceral_fat_rating = m2.visceral_fat_rating ∧
  m1.source_files.Perm m2.source_files ∧ m1.source_types.Perm m2.source_types ∧
  m1.drive_file_ids.Perm m2.drive_file_ids ∧
  m1.ingestion_timestamp = m2.ingestion_timestamp ∧
  m1.field_sources = m2.field_sources ∧
  m1.conflicting_fields = m2.conflicting_fields ∧
  m1.chosen_source = m2.chosen_source ∧
  m1.weight_kg_csv = m2.weight_kg_csv ∧ m1.weight_kg_fit = m2.weight_kg_fit ∧
  m1.body_fat_pct_csv = m2.body_fat_pct_csv ∧
  m1.body_fat_pct_fit = m2.body_fat_pct_fit

/-- Claim C5 as stated: two arrival orders of the same multiset of raw
records consolidate to pointwise-equivalent outputs (same sorted sequence of
measurements, lineage lists compared as multisets). -/
def C5Claim : Prop :=
  ∀ (config : ProcessingConfig) (now : ℤ) (raw1 raw2 : List RawWeightRecord)
    (out1 out2 : List WeightMeasurement), raw1.Perm raw2 →
    consolidate config now raw1 = Except.ok out1 →
    consolidate config now raw2 = Except.ok out2 →
    List.Forall₂ measEquiv out1 out2

/-- Claim C8 as stated, instantiated to the weight field with a csv
preference in force: whenever the preference policy resolved a weight
conflict, the measurement carries a non-absent chosen-source tag. -/
def C8Claim : Prop :=
  ∀ (config : ProcessingConfig) (now : ℤ) (csvR fitR : List RawWeightRecord)
    (m : WeightMeasurement), mergeRecords config now csvR fitR = Except.ok m →
    "weight_kg" ∈ m.conflicting_fields → prefOf config "weight_kg" = some "csv" →
    m.chosen_source ≠ none

/-- The measurement produced by merging `rcConf` with `rfConf` under
`cfgStd` (both weight and body fat conflict). -/
def mConf : WeightMeasurement :=
  (mergeRecords cfgStd 0 [rcConf] [rfConf]).toOption.getD default

/-- The measurement produced by merging `rcConf` with `rfConf` under
`cfgPrefCsv` (conflicts resolved by the csv default preference). -/
def mConfPref : WeightMeasurement :=
  (mergeRecords cfgPrefCsv 0 [rcConf] [rfConf]).toOption.getD default

/-! ## Theorems -/

/-- A single-field merge reports a conflict exactly when both sources supplied
a value and the two values differ beyond the numeric tolerance. -/
theorem mergeField_conflict_iff (config : ProcessingConfig) (a b : Option ℚ)
    (name : String) :
    (mergeField config a b name).2.2 = true ↔
    ∃ x y, a = some x ∧ b = some y ∧ |x - y| > config.numeric_tolerance := by
  cases a with
  | none => cases b <;> simp [mergeField]
  | some x =>
    cases b with
    | none => simp [mergeField]
    | some y =>
      by_cases h : |x - y| ≤ config.numeric_tolerance
      · simp [mergeField, h, not_lt.mpr h]
      · by_cases hc : prefOf config name = some "csv"
        · simp [mergeField, h, hc, lt_of_not_le h]
        · by_cases hf : prefOf config name = some "fit"
          · simp [mergeField, h, hc, hf, lt_of_not_le h]
          · simp [mergeField, h, hc, hf, lt_of_not_le h]

/-- Inversion of a successful `mergeRecords`: the produced measurement is the
`buildMeasurement` of the head record and the fourteen per-field merges. -/
theorem mergeRecords_ok_inv (config : ProcessingConfig) (now : ℤ)
    (csvR fitR : List RawWeightRecord) (m : WeightMeasurement)
    (h : mergeRecords config now csvR fitR = Except.ok m) :
    ∃ first rest w, csvR ++ fitR = first :: rest ∧
      (mergeField config (getOpt csvR.head? (fun r => r.weight_kg))
        (getOpt fitR.head? (fun r => r.weight_kg)) "weight_kg").1 = some w ∧
      m = buildMeasurement now first.timestamp
        ((csvR ++ fitR).map (fun r => r.source_file_name))
        (((csvR ++ fitR).map (fun r => r.source_type)).dedup)
        ((csvR ++ fitR).map (fun r => r.source_file_id))
        (getOpt csvR.head? (fun r => r.weight_kg))
        (getOpt fitR.head? (fun r => r.weight_kg))
        (getOpt csvR.head? (fun r => r.body_fat_pct))
        (getOpt fitR.head? (fun r => r.body_fat_pct))
        (mergeField config (getOpt csvR.head? (fun r => r.weight_kg))
          (getOpt fitR.head? (fun r => r.weight_kg)) "weight_kg")
        (mergeField config (getOpt csvR.head? (fun r => r.body_fat_pct))
          (getOpt fitR.head? (fun r => r.body_fat_pct)) "body_fat_pct")
        (mergeField config (getOpt csvR.head? (fun r => r.fat_mass_kg))
          (getOpt fitR.head? (fun r => r.fat_mass_kg)) "fat_mass_kg")
        (mergeField config (getOpt csvR.head? (fun r => r.fat_free_pct))
          (getOpt fitR.head? (fun r => r.fat_free_pct)) "fat_free_pct")
        (mergeField config (getOpt csvR.head? (fun r => r.fat_free_mass_kg))
          (getOpt fitR.head? (fun r => r.fat_free_mass_kg)) "fat_free_mass_kg")
        (mergeField config (getOpt csvR.head? (fun r => r.skeletal_muscle_pct))
          (getOpt fitR.head? (fun r => r.skeletal_muscle_pct)) "skeletal_muscle_pct")
        (mergeField config (getOpt csvR.head? (fun r => r.skeletal_muscle_mass_kg))
          (getOpt fitR.head? (fun r => r.skeletal_muscle_mass_kg)) "skeletal_muscle_mass_kg")
        (mergeField config (getOpt csvR.head? (fun r => r.muscle_pct))
          (getOpt fitR.head? (fun r => r.muscle_pct)) "muscle_pct")
        (mergeField config (getOpt csvR.head? (fun r => r.muscle_mass_kg))
          (getOpt fitR.head? (fun r => r.muscle_mass_kg)) "muscle_mass_kg")
        (mergeField config (getOpt csvR.head? (fun r => r.bone_mass_kg))
          (getOpt fitR.head? (fun r => r.bone_mass_kg)) "bone_mass_kg")
        (mergeField config (getOpt csvR.head? (fun r => r.body_water))
          (getOpt fitR.head? (fun r => r.body_water)) "body_water")
        (mergeField config (getOpt csvR.head? (fun r => r.bmr_kcal))
          (getOpt fitR.head? (fun r => r.bmr_kcal)) "bmr_kcal")
        (mergeField config (getOpt csvR.head? (fun r => r.metabolic_age))
          (getOpt fitR.head? (fun r => r.metabolic_age)) "metabolic_age")
        (mergeField config (getOpt csvR.head? (fun r => r.visceral_fat_rating))
          (getOpt fitR.head? (fun r => r.visceral_fat_rating)) "visceral_fat_rating")
        (generateRecordId config.record_id first.timestamp w
          (((csvR ++ fitR).map (fun r => r.source_type)).dedup)) w := by
  unfold mergeRecords at h
  cases hall : csvR ++ fitR with
  | nil => rw [hall] at h; exact absurd h (by simp)
  | cons first rest =>
    rw [hall] at h
    dsimp only at h
    split at h
    · exact absurd h (by simp)
    · rename_i w hw
      refine ⟨first, rest, w, rfl, hw, ?_⟩
      injection h with h2
      exact h2.symm

/-- The conflicting-fields list of any successfully merged measurement. -/
theorem mergeRecords_ok_conflicting (config : ProcessingConfig) (now : ℤ)
    (csvR fitR : List RawWeightRecord) (m : WeightMeasurement)
    (h : mergeRecords config now csvR fitR = Except.ok m) :
    m.conflicting_fields =
      (if (mergeField config (getOpt csvR.head? (fun r => r.weight_kg))
        (getOpt fitR.head? (fun r => r.weight_kg)) "weight_kg").2.2 then
          ["weight_kg"] else []) ++
      (if (mergeField config (getOpt csvR.head? (fun r => r.body_fat_pct))
        (getOpt fitR.head? (fun r => r.body_fat_pct)) "body_fat_pct").2.2 then
          ["body_fat_pct"] else []) := by
  obtain ⟨first, rest, w, hall, hw, hm⟩ :=
    mergeRecords_ok_inv config now csvR fitR m h
  subst hm
  rfl

/-- Every successfully merged measurement has `chosen_source = none`. -/
theorem mergeRecords_ok_chosen (config : ProcessingConfig) (now : ℤ)
    (csvR fitR : List RawWeightRecord) (m : WeightMeasurement)
    (h : mergeRecords config now csvR fitR = Except.ok m) :
    m.chosen_source = none := by
  obtain ⟨first, rest, w, hall, hw, hm⟩ :=
    mergeRecords_ok_inv config now csvR fitR m h
  subst hm
  rfl

/-- The source-file lineage of a merged measurement lists every contributing
record's file name. -/
theorem mergeRecords_ok_source_files (config : ProcessingConfig) (now : ℤ)
    (csvR fitR : List RawWeightRecord) (m : WeightMeasurement)
    (h : mergeRecords config now csvR fitR = Except.ok m) :
    m.source_files = (csvR ++ fitR).map (fun r => r.source_file_name) := by
  obtain ⟨first, rest, w, hall, hw, hm⟩ :=
    mergeRecords_ok_inv config now csvR fitR m h
  subst hm
  rfl

/-- A merged measurement's timestamp is the first contributing record's
timestamp. -/
theorem mergeRecords_ok_timestamp (config : ProcessingConfig) (now : ℤ)
    (csvR fitR : List RawWeightRecord) (m : WeightMeasurement)
    (h : mergeRecords config now csvR fitR = Except.ok m) :
    ∃ first rest, csvR ++ fitR = first :: rest ∧ m.timestamp = first.timestamp := by
  obtain ⟨first, rest, w, hall, hw, hm⟩ :=
    mergeRecords_ok_inv config now csvR fitR m h
  exact ⟨first, rest, hall, by subst hm; rfl⟩

/-- On nonempty input, the only error `_merge_records` can raise is the
missing-weight `ConsolidationError`. -/
theorem mergeRecords_error_msg (config : ProcessingConfig) (now : ℤ)
    (csvR fitR : List RawWeightRecord) (e : String)
    (hne : csvR ++ fitR ≠ [])
    (h : mergeRecords config now csvR fitR = Except.error e) :
    e = "Cannot consolidate record without weight_kg" := by
  unfold mergeRecords at h
  cases hall : csvR ++ fitR with
  | nil => exact absurd hall hne
  | cons first rest =>
    rw [hall] at h
    dsimp only at h
    split at h
    · injection h with h2; exact h2.symm
    · exact absurd h (by simp)

/-- CLAIM C3 — Single-field merge: with both inputs absent the result is
absent with the merged tag and no conflict; with exactly one input present
the result is that value with that source's tag and no conflict; with both
present within tolerance the result is the CSV value with the merged tag and
no conflict; with both present beyond tolerance the result is the value
chosen by the per-field preference falling back to the default preference and
then to the CSV value, tagged as conflict with `is_conflict` true. -/
theorem C3_mergeField_cases (config : ProcessingConfig) (a b : ℚ) (name : String) :
    mergeField config none none name = (none, FieldSource.merged, false) ∧
    mergeField config none (some b) name = (some b, FieldSource.fit, false) ∧
    mergeField config (some a) none name = (some a, FieldSource.csv, false) ∧
    (|a - b| ≤ config.numeric_tolerance →
      mergeField config (some a) (some b) name = (some a, FieldSource.merged, false)) ∧
    (|a - b| > config.numeric_tolerance →
      mergeField config (some a) (some b) name =
        (some (if prefOf config name = some "fit" then b else a),
         FieldSource.conflict, true)) := by
  refine ⟨rfl, rfl, rfl, fun h => by simp [mergeField, h], fun h => ?_⟩
  have hnot : ¬ |a - b| ≤ config.numeric_tolerance := not_le.mpr h
  by_cases hc : prefOf config name = some "csv"
  · simp [mergeField, hnot, hc]
  · by_cases hf : prefOf config name = some "fit"
    · simp [mergeField, hnot, hc, hf]
    · simp [mergeField, hnot, hc, hf]

/-- Witness for C3 at a concrete conflicting input:
75.5 vs 76.0 at tolerance 0.001 is beyond tolerance, and the merge yields the
preference-selected value (the CSV value, since no preference is set), the
conflict tag, and a raised conflict flag. -/
theorem C3_mergeField_cases_witness :
    |(151 : ℚ)/2 - 76| > cfgStd.numeric_tolerance ∧
    mergeField cfgStd (some (151/2)) (some 76) "weight_kg" =
      (some (if prefOf cfgStd "weight_kg" = some "fit" then (76 : ℚ) else 151/2),
       FieldSource.conflict, true) :=
  ⟨by decide!, (C3_mergeField_cases cfgStd (151/2) 76 "weight_kg").2.2.2.2 (by decide!)⟩

/-- CLAIM C6 — Identity generation is deterministic and order-independent in
the source-kind set: two calls with the same bucketed timestamp, the same
weight, permuted source-kind lists and the same configuration produce the
same id string. -/
theorem C6_generateRecordId_deterministic (config : RecordIDConfig)
    (ts1 ts2 : ℤ) (w : ℚ) (l1 l2 : List SourceType)
    (hts : roundTimestamp ts1 config.timestamp_rounding_seconds =
      roundTimestamp ts2 config.timestamp_rounding_seconds)
    (hp : l1.Perm l2) :
    generateRecordId config ts1 w l1 = generateRecordId config ts2 w l2 := by
  simp only [generateRecordId, sortedTypeValues, hts, hp.mem_iff]

/-- Witness for C6: instants 30 and 59 share the 60-second bucket, and the
kind set presented in the two possible orders yields the same id. -/
theorem C6_generateRecordId_deterministic_witness :
    generateRecordId cfgStd.record_id 30 (151/2) [SourceType.fit, SourceType.csv] =
    generateRecordId cfgStd.record_id 59 (151/2) [SourceType.csv, SourceType.fit] :=
  C6_generateRecordId_deterministic cfgStd.record_id 30 59 (151/2) _ _ (by decide)
    (List.Perm.swap SourceType.csv SourceType.fit [])

/-- CLAIM C7 — Identity bucketing truncates: for any positive bucket the
bucketed timestamp is the greatest bucket multiple not exceeding the instant
(rounding down, never to nearest), and with a 60-second bucket the instants
at second 0 and second 59 of minute `m` share a bucket while second 0 of
minute `m + 1` starts the next bucket. -/
theorem C7_roundTimestamp_truncates (t b m : ℤ) (hb : 0 < b) :
    (roundTimestamp t b ≤ t ∧ t < roundTimestamp t b + b) ∧
    roundTimestamp (60 * m) 60 = 60 * m ∧
    roundTimestamp (60 * m + 59) 60 = 60 * m ∧
    roundTimestamp (60 * (m + 1)) 60 = 60 * m + 60 := by
  refine ⟨?_, ?_, ?_, ?_⟩
  · unfold roundTimestamp
    rw [Int.fdiv_eq_ediv _ hb.le]
    have h1 := Int.emod_nonneg t (by omega : b ≠ 0)
    have h2 := Int.emod_lt_of_pos t hb
    have h3 := Int.ediv_add_emod t b
    have h4 : t / b * b = b * (t / b) := mul_comm _ _
    constructor <;> omega
  · unfold roundTimestamp
    rw [Int.fdiv_eq_ediv _ (by omega)]
    omega
  · unfold roundTimestamp
    rw [Int.fdiv_eq_ediv _ (by omega)]
    omega
  · unfold roundTimestamp
    rw [Int.fdiv_eq_ediv _ (by omega)]
    omega

/-- Witness for C7 at instant 125, bucket 60, minute 2. -/
theorem C7_roundTimestamp_truncates_witness :
    (roundTimestamp 125 60 ≤ 125 ∧ (125 : ℤ) < roundTimestamp 125 60 + 60) ∧
    roundTimestamp (60 * 2) 60 = 60 * 2 ∧
    roundTimestamp (60 * 2 + 59) 60 = 60 * 2 ∧
    roundTimestamp (60 * (2 + 1)) 60 = 60 * 2 + 60 :=
  C7_roundTimestamp_truncates 125 60 2 (by decide)

/-- CLAIM C1 — COUNTEREXAMPLE: the claimed equivalence fails for the twelve
fields other than weight and body fat.  Merging `rcFat` and `rfFat` (fat
masses 10 vs 20 at tolerance 0.001, equal weights) yields a measurement whose
`conflicting_fields` does not contain "fat_mass_kg" although both sources
supplied fat-mass values beyond tolerance: `_merge_records` discards the
conflict flag of every field except weight and body fat. -/
theorem C1_counterexample : ¬ C1Claim := by
  intro h
  cases hm : mergeRecords cfgStd 0 [rcFat] [rfFat] with
  | error e =>
    have hne : (mergeRecords cfgStd 0 [rcFat] [rfFat]).toOption.isSome = true := by decide!
    rw [hm] at hne
    exact absurd hne (by simp [Except.toOption])
  | ok m =>
    have hc := h cfgStd 0 [rcFat] [rfFat] m hm "fat_mass_kg" (by decide)
    have hmem : "fat_mass_kg" ∈ m.conflicting_fields :=
      hc.mpr ⟨10, 20, by decide!, by decide!, by decide!⟩
    have hcf := mergeRecords_ok_conflicting cfgStd 0 [rcFat] [rfFat] m hm
    rw [hcf] at hmem
    exact absurd hmem (by decide!)

/-- CLAIM C1 (amended) — Only the weight and body-fat fields are tracked in
`conflicting_fields`: for every successfully merged measurement, "weight_kg"
(resp. "body_fat_pct") is listed iff both sources supplied that field and the
values differ beyond tolerance, and no other field name ever appears, the
conflict flags of the remaining twelve fields being discarded. -/
theorem C1_amended_conflicting_fields (config : ProcessingConfig) (now : ℤ)
    (csvR fitR : List RawWeightRecord) (m : WeightMeasurement)
    (h : mergeRecords config now csvR fitR = Except.ok m) :
    ("weight_kg" ∈ m.conflicting_fields ↔
      ∃ x y, getOpt csvR.head? (fun r => r.weight_kg) = some x ∧
        getOpt fitR.head? (fun r => r.weight_kg) = some y ∧
        |x - y| > config.numeric_tolerance) ∧
    ("body_fat_pct" ∈ m.conflicting_fields ↔
      ∃ x y, getOpt csvR.head? (fun r => r.body_fat_pct) = some x ∧
        getOpt fitR.head? (fun r => r.body_fat_pct) = some y ∧
        |x - y| > config.numeric_tolerance) ∧
    (∀ f ∈ m.conflicting_fields, f = "weight_kg" ∨ f = "body_fat_pct") := by
  have hcf := mergeRecords_ok_conflicting config now csvR fitR m h
  have h1 := mergeField_conflict_iff config (getOpt csvR.head? (fun r => r.weight_kg))
    (getOpt fitR.head? (fun r => r.weight_kg)) "weight_kg"
  have h2 := mergeField_conflict_iff config (getOpt csvR.head? (fun r => r.body_fat_pct))
    (getOpt fitR.head? (fun r => r.body_fat_pct)) "body_fat_pct"
  rw [hcf]
  rw [← h1, ← h2]
  cases hb1 : (mergeField config (getOpt csvR.head? (fun r => r.weight_kg))
      (getOpt fitR.head? (fun r => r.weight_kg)) "weight_kg").2.2 <;>
    cases hb2 : (mergeField config (getOpt csvR.head? (fun r => r.body_fat_pct))
      (getOpt fitR.head? (fun r => r.body_fat_pct)) "body_fat_pct").2.2 <;>
    simp

/-- Witness for the amended C1 at the conflicting pair `rcConf`, `rfConf`:
both tracked fields conflict and are listed, and nothing else is listed. -/
theorem C1_amended_conflicting_fields_witness :
    mergeRecords cfgStd 0 [rcConf] [rfConf] = Except.ok mConf ∧
    (("weight_kg" ∈ mConf.conflicting_fields ↔
      ∃ x y, getOpt [rcConf].head? (fun r => r.weight_kg) = some x ∧
        getOpt [rfConf].head? (fun r => r.weight_kg) = some y ∧
        |x - y| > cfgStd.numeric_tolerance) ∧
    ("body_fat_pct" ∈ mConf.conflicting_fields ↔
      ∃ x y, getOpt [rcConf].head? (fun r => r.body_fat_pct) = some x ∧
        getOpt [rfConf].head? (fun r => r.body_fat_pct) = some y ∧
        |x - y| > cfgStd.numeric_tolerance) ∧
    (∀ f ∈ mConf.conflicting_fields, f = "weight_kg" ∨ f = "body_fat_pct")) := by
  have hm : mergeRecords cfgStd 0 [rcConf] [rfConf] = Except.ok mConf := by decide!
  exact ⟨hm, C1_amended_conflicting_fields cfgStd 0 [rcConf] [rfConf] mConf hm⟩

/-- CLAIM C8 — COUNTEREXAMPLE: with a csv default preference in force and a
genuine weight conflict (`rcConf` vs `rfConf` under `cfgPrefCsv`), the policy
chooses the csv value, yet the measurement's `chosen_source` remains `none`:
the code never assigns the chosen-source tag. -/
theorem C8_counterexample : ¬ C8Claim := by
  intro h
  cases hm : mergeRecords cfgPrefCsv 0 [rcConf] [rfConf] with
  | error e =>
    have hne : (mergeRecords cfgPrefCsv 0 [rcConf] [rfConf]).toOption.isSome = true := by
      decide!
    rw [hm] at hne
    exact absurd hne (by simp [Except.toOption])
  | ok m =>
    have hcf := mergeRecords_ok_conflicting cfgPrefCsv 0 [rcConf] [rfConf] m hm
    have hmem : "weight_kg" ∈ m.conflicting_fields := by rw [hcf]; decide!
    have hch := mergeRecords_ok_chosen cfgPrefCsv 0 [rcConf] [rfConf] m hm
    exact h cfgPrefCsv 0 [rcConf] [rfConf] m hm hmem (by decide) hch

/-- CLAIM C8 (amended) — The chosen-source tag is never populated: every
measurement produced by `_merge_records` has `chosen_source = none`, whether
or not a conflict-resolution preference was applied. -/
theorem C8_amended_chosen_source_always_none (config : ProcessingConfig) (now : ℤ)
    (csvR fitR : List RawWeightRecord) (m : WeightMeasurement)
    (h : mergeRecords config now csvR fitR = Except.ok m) :
    m.chosen_source = none :=
  mergeRecords_ok_chosen config now csvR fitR m h

/-- Witness for the amended C8: the csv-preferred conflicting merge still
carries no chosen-source tag. -/
theorem C8_amended_chosen_source_always_none_witness :
    mergeRecords cfgPrefCsv 0 [rcConf] [rfConf] = Except.ok mConfPref ∧
    mConfPref.chosen_source = none := by
  have hm : mergeRecords cfgPrefCsv 0 [rcConf] [rfConf] = Except.ok mConfPref := by decide!
  exact ⟨hm, C8_amended_chosen_source_always_none cfgPrefCsv 0 [rcConf] [rfConf] mConfPref hm⟩

/-- Inserting a record into the timestamp grouping never empties it. -/
theorem insertGrouped_ne_nil (acc : List (ℤ × List RawWeightRecord))
    (r : RawWeightRecord) : insertGrouped acc r ≠ [] := by
  unfold insertGrouped
  split
  · rename_i hany
    cases acc with
    | nil => simp at hany
    | cons p rest => simp
  · simp

/-- A nonempty record list groups into a nonempty group list. -/
theorem groupByTimestamp_ne_nil (records : List RawWeightRecord)
    (h : records ≠ []) : groupByTimestamp records ≠ [] := by
  unfold groupByTimestamp
  cases records with
  | nil => exact absurd rfl h
  | cons r rest =>
    rw [List.foldl_cons]
    have hbase := insertGrouped_ne_nil [] r
    clear h
    generalize insertGrouped [] r = acc at hbase
    induction rest generalizing acc with
    | nil => exact hbase
    | cons s rest ih =>
      rw [List.foldl_cons]
      exact ih _ (insertGrouped_ne_nil acc s)

/-- A successful CSV-group pass yields one measurement per group. -/
theorem mergeCsvGroups_ok_length (config : ProcessingConfig) (now : ℤ)
    (fitGroups : List (ℤ × List RawWeightRecord)) :
    ∀ (gs : List (ℤ × List RawWeightRecord)) (l : List WeightMeasurement),
    mergeCsvGroups config now fitGroups gs = Except.ok l → l.length = gs.length := by
  intro gs
  induction gs with
  | nil => intro l h; unfold mergeCsvGroups at h; injection h with h2; simp [← h2]
  | cons g rest ih =>
    intro l h
    unfold mergeCsvGroups at h
    split at h
    · exact absurd h (by simp)
    · split at h
      · exact absurd h (by simp)
      · rename_i ms hms
        injection h with h2
        subst h2
        simp [ih ms hms]

/-- A successful CSV-group pass merged every group. -/
theorem mergeCsvGroups_ok_forall (config : ProcessingConfig) (now : ℤ)
    (fitGroups : List (ℤ × List RawWeightRecord)) :
    ∀ (gs : List (ℤ × List RawWeightRecord)) (l : List WeightMeasurement),
    mergeCsvGroups config now fitGroups gs = Except.ok l →
    ∀ p ∈ gs, ∃ m, mergeRecords config now p.2 (matchedFitRecs config fitGroups p.1) =
      Except.ok m := by
  intro gs
  induction gs with
  | nil => intro l _ p hp; exact absurd hp (by simp)
  | cons g rest ih =>
    intro l h p hp
    unfold mergeCsvGroups at h
    split at h
    · exact absurd h (by simp)
    · rename_i m hm
      split at h
      · exact absurd h (by simp)
      · rename_i ms hms
        rcases List.mem_cons.mp hp with hpg | hpr
        · subst hpg; exact ⟨m, hm⟩
        · exact ih ms hms p hpr

/-- A successful FIT-only pass yields one measurement per unmatched group. -/
theorem mergeFitGroups_ok_length (config : ProcessingConfig) (now : ℤ) :
    ∀ (gs : List (ℤ × List RawWeightRecord)) (l : List WeightMeasurement),
    mergeFitGroups config now gs = Except.ok l → l.length = gs.length := by
  intro gs
  induction gs with
  | nil => intro l h; unfold mergeFitGroups at h; injection h with h2; simp [← h2]
  | cons g rest ih =>
    intro l h
    unfold mergeFitGroups at h
    split at h
    · exact absurd h (by simp)
    · split at h
      · exact absurd h (by simp)
      · rename_i ms hms
        injection h with h2
        subst h2
        simp [ih ms hms]

/-- Stable timestamp insertion permutes consing. -/
theorem insertByTs_perm (m : WeightMeasurement) :
    ∀ l : List WeightMeasurement, (insertByTs m l).Perm (m :: l) := by
  intro l
  induction l with
  | nil => simp [insertByTs]
  | cons x xs ih =>
    unfold insertByTs
    split
    · exact ((ih.cons x).trans (List.Perm.swap m x xs))
    · exact List.Perm.refl _

/-- The timestamp sort permutes its input. -/
theorem sortByTimestamp_perm :
    ∀ l : List WeightMeasurement, (sortByTimestamp l).Perm l := by
  intro l
  induction l with
  | nil => simp [sortByTimestamp]
  | cons x xs ih =>
    unfold sortByTimestamp
    exact (insertByTs_perm x (sortByTimestamp xs)).trans (ih.cons x)

/-- Inversion of a successful `consolidate`: both passes succeeded and the
output is the sorted concatenation. -/
theorem consolidate_ok_inv (config : ProcessingConfig) (now : ℤ)
    (raw : List RawWeightRecord) (out : List WeightMeasurement)
    (h : consolidate config now raw = Except.ok out) :
    ∃ ms1 ms2,
      mergeCsvGroups config now (fitGroupsOf raw) (csvGroupsOf raw) = Except.ok ms1 ∧
      mergeFitGroups config now
        (unmatchedFitGroups config (csvGroupsOf raw) (fitGroupsOf raw)) = Except.ok ms2 ∧
      out = sortByTimestamp (ms1 ++ ms2) := by
  unfold consolidate at h
  dsimp only at h
  split at h
  · exact absurd h (by simp)
  · rename_i ms1 hms1
    split at h
    · exact absurd h (by simp)
    · rename_i ms2 hms2
      injection h with h2
      exact ⟨ms1, ms2, hms1, hms2, h2.symm⟩

/-- The size of a successful consolidation output: one measurement per CSV
group plus one per unmatched FIT group — no group is ever excluded. -/
theorem consolidate_ok_length (config : ProcessingConfig) (now : ℤ)
    (raw : List RawWeightRecord) (out : List WeightMeasurement)
    (h : consolidate config now raw = Except.ok out) :
    out.length = (csvGroupsOf raw).length +
      (unmatchedFitGroups config (csvGroupsOf raw) (fitGroupsOf raw)).length := by
  obtain ⟨ms1, ms2, hms1, hms2, hout⟩ := consolidate_ok_inv config now raw out h
  subst hout
  rw [(sortByTimestamp_perm (ms1 ++ ms2)).length_eq, List.length_append,
    mergeCsvGroups_ok_length config now _ _ _ hms1,
    mergeFitGroups_ok_length config now _ _ hms2]

/-- CLAIM C2 — COUNTEREXAMPLE: with one healthy CSV group (`rcGood`) and one
weightless CSV group (`rcNoWeight`), the healthy group merges successfully,
yet `consolidate` fails for the whole batch: the missing-weight
`ConsolidationError` raised inside the loop propagates to the outer handler
and aborts the entire run instead of excluding the one bad group. -/
theorem C2_counterexample : ¬ C2Claim := by
  intro h
  obtain ⟨out, hout⟩ := h cfgStd 0 [rcGood, rcNoWeight]
    ⟨(0, [rcGood]), by decide!,
     (mergeRecords cfgStd 0 [rcGood]
       (matchedFitRecs cfgStd (fitGroupsOf [rcGood, rcNoWeight]) 0)).toOption.getD default,
     by decide!⟩
  have herr : consolidate cfgStd 0 [rcGood, rcNoWeight] =
      Except.error "Consolidation failed: Cannot consolidate record without weight_kg" := by
    decide!
  rw [herr] at hout
  exact Except.noConfusion hout

/-- CLAIM C2 (amended) — There is no per-group recovery: when `consolidate`
succeeds, every CSV group merged successfully and the output holds exactly
one measurement per CSV group and per unmatched FIT group; consequently a
group resolving to an absent primary weight always aborts the whole run with
a consolidation error, regardless of how many other groups were valid. -/
theorem C2_amended_group_failure_is_fatal (config : ProcessingConfig) (now : ℤ)
    (raw : List RawWeightRecord) (out : List WeightMeasurement)
    (h : consolidate config now raw = Except.ok out) :
    (∀ p ∈ csvGroupsOf raw, ∃ m,
      mergeRecords config now p.2 (matchedFitRecs config (fitGroupsOf raw) p.1) =
        Except.ok m) ∧
    out.length = (csvGroupsOf raw).length +
      (unmatchedFitGroups config (csvGroupsOf raw) (fitGroupsOf raw)).length := by
  obtain ⟨ms1, ms2, hms1, hms2, hout⟩ := consolidate_ok_inv config now raw out h
  exact ⟨mergeCsvGroups_ok_forall config now _ _ _ hms1,
    consolidate_ok_length config now raw out h⟩

/-- Witness for the amended C2 on the two-record conflicting input. -/
theorem C2_amended_group_failure_is_fatal_witness :
    consolidate cfgStd 0 [rcConf, rfConf] = Except.ok (sortByTimestamp [mConf]) ∧
    ((∀ p ∈ csvGroupsOf [rcConf, rfConf], ∃ m,
      mergeRecords cfgStd 0 p.2
        (matchedFitRecs cfgStd (fitGroupsOf [rcConf, rfConf]) p.1) = Except.ok m) ∧
    (sortByTimestamp [mConf]).length = (csvGroupsOf [rcConf, rfConf]).length +
      (unmatchedFitGroups cfgStd (csvGroupsOf [rcConf, rfConf])
        (fitGroupsOf [rcConf, rfConf])).length) := by
  have hc : consolidate cfgStd 0 [rcConf, rfConf] = Except.ok (sortByTimestamp [mConf]) := by
    decide!
  exact ⟨hc, C2_amended_group_failure_is_fatal cfgStd 0 [rcConf, rfConf] _ hc⟩

/-- CLAIM C4 — COUNTEREXAMPLE: on empty input `consolidate` returns the empty
list without raising any error, contradicting the claim that zero surviving
records always raise a consolidation error. -/
theorem C4_counterexample : ¬ C4Claim := by
  intro h
  exact h cfgStd 0 [] [] (by decide!) rfl

/-- CLAIM C4 (amended) — A successful `consolidate` returns an empty list
exactly on empty input: the empty-input run returns `[]` without error, while
any nonempty input either yields at least one measurement or raises a
consolidation error (it is never silently empty). -/
theorem C4_amended_empty_iff_empty_input (config : ProcessingConfig) (now : ℤ)
    (raw : List RawWeightRecord) (out : List WeightMeasurement)
    (h : consolidate config now raw = Except.ok out) :
    out = [] ↔ raw = [] := by
  constructor
  · intro hout
    subst hout
    by_contra hraw
    have hlen := consolidate_ok_length config now raw [] h
    cases raw with
    | nil => exact hraw rfl
    | cons r rest =>
      cases hst : r.source_type with
      | csv =>
        have hcne : (r :: rest).filter (fun s => s.source_type = SourceType.csv) ≠ [] := by
          have : r ∈ (r :: rest).filter (fun s => s.source_type = SourceType.csv) :=
            List.mem_filter.mpr ⟨List.mem_cons_self r rest, by simp [hst]⟩
          intro hnil; rw [hnil] at this; exact absurd this (List.not_mem_nil r)
        have := groupByTimestamp_ne_nil _ hcne
        unfold csvGroupsOf at hlen
        cases hg : groupByTimestamp
            ((r :: rest).filter (fun s => s.source_type = SourceType.csv)) with
        | nil => exact this hg
        | cons a b =>
          rw [hg] at hlen
          simp only [List.length_nil, List.length_cons] at hlen
          omega
      | fit =>
        have hfne : (r :: rest).filter (fun s => s.source_type = SourceType.fit) ≠ [] := by
          have : r ∈ (r :: rest).filter (fun s => s.source_type = SourceType.fit) :=
            List.mem_filter.mpr ⟨List.mem_cons_self r rest, by simp [hst]⟩
          intro hnil; rw [hnil] at this; exact absurd this (List.not_mem_nil r)
        have hgne := groupByTimestamp_ne_nil _ hfne
        rcases hcs : csvGroupsOf (r :: rest) with _ | ⟨a, b⟩
        · have hun : unmatchedFitGroups config (csvGroupsOf (r :: rest))
              (fitGroupsOf (r :: rest)) = fitGroupsOf (r :: rest) := by
            rw [hcs]
            unfold unmatchedFitGroups
            simp
          rw [hun] at hlen
          unfold fitGroupsOf at hlen
          cases hg : groupByTimestamp
              ((r :: rest).filter (fun s => s.source_type = SourceType.fit)) with
          | nil => exact hgne hg
          | cons a b =>
            rw [hg] at hlen
            simp only [List.length_nil, List.length_cons] at hlen
            omega
        · rw [hcs] at hlen
          simp only [List.length_nil, List.length_cons] at hlen
          omega
  · intro hraw
    subst hraw
    have : consolidate config now ([] : List RawWeightRecord) = Except.ok [] := rfl
    rw [this] at h
    injection h with h2
    exact h2.symm

/-- Witness for the amended C4: a successful one-record run is nonempty and
its input is nonempty. -/
theorem C4_amended_empty_iff_empty_input_witness :
    consolidate cfgStd 0 [rcGood] = Except.ok (sortByTimestamp
      [(mergeRecords cfgStd 0 [rcGood] []).toOption.getD default]) ∧
    (sortByTimestamp [(mergeRecords cfgStd 0 [rcGood] []).toOption.getD default] = [] ↔
      ([rcGood] : List RawWeightRecord) = []) := by
  have hc : consolidate cfgStd 0 [rcGood] = Except.ok (sortByTimestamp
      [(mergeRecords cfgStd 0 [rcGood] []).toOption.getD default]) := by decide!
  exact ⟨hc, C4_amended_empty_iff_empty_input cfgStd 0 [rcGood] _ hc⟩

/-- Bumping a key increments exactly that key's counter. -/
theorem countOf_bump_self (ms : List (String × ℕ)) (k : String) :
    countOf (bump ms k) k = countOf ms k + 1 := by
  induction ms with
  | nil => simp [bump, countOf]
  | cons p rest ih =>
    unfold bump countOf
    by_cases h : p.1 = k <;> simp [h, ih]

/-- Bumping one key leaves every other key's counter unchanged. -/
theorem countOf_bump_ne (ms : List (String × ℕ)) (k k' : String) (h : k' ≠ k) :
    countOf (bump ms k') k = countOf ms k := by
  induction ms with
  | nil => simp [bump, countOf, h]
  | cons p rest ih =>
    by_cases hp : p.1 = k'
    · have hpk : p.1 ≠ k := fun he => h (hp.symm.trans he)
      simp [bump, countOf, hp, hpk, h]
    · simp [bump, countOf, hp, ih]

/-- A field-comparison step only ever touches its own field's counter. -/
theorem countOf_compareFieldStep_ne (config : ProcessingConfig)
    (c f : RawWeightRecord) (ms : List (String × ℕ))
    (p : String × (RawWeightRecord → Option ℚ)) (k : String) (h : p.1 ≠ k) :
    countOf (compareFieldStep config c f ms p) k = countOf ms k := by
  unfold compareFieldStep
  split
  · split
    · exact countOf_bump_ne ms k p.1 h
    · rfl
  · rfl

/-- The truthiness-guarded weight comparison never touches a non-weight
counter. -/
theorem countOf_weightCompare_ne (config : ProcessingConfig)
    (c f : RawWeightRecord) (wd : List ℚ) (ms : List (String × ℕ)) (k : String)
    (h : k ≠ "weight_kg") :
    countOf (weightCompare config c f wd ms).2 k = countOf ms k := by
  unfold weightCompare
  split
  · split
    · dsimp only
      split
      · exact countOf_bump_ne ms k "weight_kg" (Ne.symm h)
      · rfl
    · rfl
  · rfl

/-- CLAIM C9 — In `_compare_pair`, weight presence is tested by Python
truthiness: a matched pair in which either side's weight is exactly 0.0 is
processed exactly as if that weight were absent, contributing nothing to the
weight mismatch counter or to the mean-absolute-error accumulator (a
singleton matched pair with a zero weight ends with no weight mismatches and
no MAE), whereas the other compared fields are tested with `is not None`, so
a body-fat value of exactly 0.0 still participates and can count a
mismatch. -/
theorem C9_weight_zero_truthiness (config : ProcessingConfig)
    (c f : RawWeightRecord) (st : CompareState) (i : ℕ) :
    (c.weight_kg = some 0 →
      applyMatched config c f st i =
        applyMatched config { c with weight_kg := none } f st i) ∧
    (f.weight_kg = some 0 →
      applyMatched config c f st i =
        applyMatched config c { f with weight_kg := none } st i) ∧
    (∀ a b, c.body_fat_pct = some a → f.body_fat_pct = some b →
      |a - b| > config.numeric_tolerance →
      countOf (applyMatched config c f st i).mismatches "body_fat_pct" =
        countOf st.mismatches "body_fat_pct" + 1) ∧
    (timestampsMatch c.timestamp f.timestamp config.timestamp_tolerance_seconds = true →
      (c.weight_kg = some 0 ∨ f.weight_kg = some 0) →
      (comparePair config [c] [f]).weight_mae = none ∧
      countOf (comparePair config [c] [f]).mismatches "weight_kg" = 0) := by
  have hwc0 : ∀ (wd : List ℚ) (ms : List (String × ℕ)),
      (c.weight_kg = some 0 ∨ f.weight_kg = some 0) →
      weightCompare config c f wd ms = (wd, ms) := by
    intro wd ms h0
    unfold weightCompare
    rcases h0 with h0 | h0 <;> rw [h0] <;>
      [cases f.weight_kg; cases c.weight_kg] <;> simp
  refine ⟨?_, ?_, ?_, ?_⟩
  · intro h0
    unfold applyMatched
    rw [hwc0 _ _ (Or.inl h0)]
    have hwn : weightCompare config { c with weight_kg := none } f st.weight_differences
        st.mismatches = (st.weight_differences, st.mismatches) := by
      unfold weightCompare; simp
    rw [hwn]
    rfl
  · intro h0
    unfold applyMatched
    rw [hwc0 _ _ (Or.inr h0)]
    have hwn : weightCompare config c { f with weight_kg := none } st.weight_differences
        st.mismatches = (st.weight_differences, st.mismatches) := by
      unfold weightCompare; cases c.weight_kg <;> simp
    rw [hwn]
    rfl
  · intro a b hca hfb htol
    unfold applyMatched
    dsimp only
    simp only [comparedFields, List.foldl_cons, List.foldl_nil]
    rw [countOf_compareFieldStep_ne config c f _ _ "body_fat_pct" (by decide),
      countOf_compareFieldStep_ne config c f _ _ "body_fat_pct" (by decide),
      countOf_compareFieldStep_ne config c f _ _ "body_fat_pct" (by decide)]
    unfold compareFieldStep
    dsimp only
    rw [hca, hfb]
    simp only [htol, if_pos]
    rw [countOf_bump_self]
    rw [countOf_weightCompare_ne config c f _ _ "body_fat_pct" (by decide)]
  · intro hmatch h0
    have hfold : List.foldl (compareStepCsv config [f])
        { both_count := 0, csv_only_count := 0, mismatches := [],
          weight_differences := [], matched_fit_indices := [] } [c] =
        applyMatched config c f
        { both_count := 0, csv_only_count := 0, mismatches := [],
          weight_differences := [], matched_fit_indices := [] } 0 := by
      simp only [List.foldl_cons, List.foldl_nil]
      unfold compareStepCsv firstMatch
      rw [hmatch]
      rfl
    have hwd : (applyMatched config c f
        { both_count := 0, csv_only_count := 0, mismatches := [],
          weight_differences := [], matched_fit_indices := [] } 0).weight_differences
        = [] := by
      unfold applyMatched
      dsimp only
      rw [hwc0 _ _ h0]
    have hms : countOf (applyMatched config c f
        { both_count := 0, csv_only_count := 0, mismatches := [],
          weight_differences := [], matched_fit_indices := [] } 0).mismatches
        "weight_kg" = 0 := by
      unfold applyMatched
      dsimp only
      simp only [comparedFields, List.foldl_cons, List.foldl_nil]
      rw [countOf_compareFieldStep_ne config c f _ _ "weight_kg" (by decide),
        countOf_compareFieldStep_ne config c f _ _ "weight_kg" (by decide),
        countOf_compareFieldStep_ne config c f _ _ "weight_kg" (by decide),
        countOf_compareFieldStep_ne config c f _ _ "weight_kg" (by decide)]
      rw [hwc0 _ _ h0]
      rfl
    constructor
    · show (comparePair config [c] [f]).weight_mae = none
      unfold comparePair
      dsimp only
      rw [hfold, hwd]
      rfl
    · show countOf (comparePair config [c] [f]).mismatches "weight_kg" = 0
      unfold comparePair
      dsimp only
      rw [hfold]
      exact hms

/-- Witness for C9: csv weight exactly 0 against fit weight 76, body fat 0
vs 18.5 beyond tolerance. -/
theorem C9_weight_zero_truthiness_witness :
    ({ rcConf with weight_kg := some 0 } : RawWeightRecord).weight_kg = some 0 ∧
    countOf (applyMatched cfgStd { rcConf with weight_kg := some 0 } rfConf
      { both_count := 0, csv_only_count := 0, mismatches := [],
        weight_differences := [], matched_fit_indices := [] } 0).mismatches
      "body_fat_pct" = countOf ([] : List (String × ℕ)) "body_fat_pct" + 1 ∧
    (comparePair cfgStd [{ rcConf with weight_kg := some 0 }] [rfConf]).weight_mae =
      none ∧
    countOf (comparePair cfgStd [{ rcConf with weight_kg := some 0 }]
      [rfConf]).mismatches "weight_kg" = 0 := by
  have h := C9_weight_zero_truthiness cfgStd { rcConf with weight_kg := some 0 } rfConf
    { both_count := 0, csv_only_count := 0, mismatches := [],
      weight_differences := [], matched_fit_indices := [] } 0
  have h4 := h.2.2.2 (by decide) (Or.inl rfl)
  exact ⟨rfl, h.2.2.1 (91/5) (37/2) rfl rfl (by decide!), h4.1, h4.2⟩

/-- CLAIM C10 — A FIT timestamp group within tolerance of a CSV timestamp
group is absorbed by it: every record of the FIT group is fed into that CSV
group's merge (so a FIT group within tolerance of several CSV groups
contributes records, values and source-file lineage to each of their
measurements), and such a FIT group is never emitted as a FIT-only
measurement, being excluded from the unmatched-group pass. -/
theorem C10_fit_group_absorption (config : ProcessingConfig) (now : ℤ)
    (raw : List RawWeightRecord) (ft : ℤ) (frs : List RawWeightRecord)
    (cts : ℤ) (crs : List RawWeightRecord)
    (hf : (ft, frs) ∈ fitGroupsOf raw) (hc : (cts, crs) ∈ csvGroupsOf raw)
    (hm : timestampsMatch cts ft config.timestamp_tolerance_seconds = true) :
    (∀ r ∈ frs, r ∈ matchedFitRecs config (fitGroupsOf raw) cts) ∧
    (ft, frs) ∉ unmatchedFitGroups config (csvGroupsOf raw) (fitGroupsOf raw) ∧
    (∀ m, mergeRecords config now crs (matchedFitRecs config (fitGroupsOf raw) cts) =
        Except.ok m → ∀ r ∈ frs, r.source_file_name ∈ m.source_files) := by
  have habs : ∀ r ∈ frs, r ∈ matchedFitRecs config (fitGroupsOf raw) cts := by
    intro r hr
    unfold matchedFitRecs
    apply List.mem_flatten.mpr
    refine ⟨frs, ?_, hr⟩
    apply List.mem_map.mpr
    exact ⟨(ft, frs), List.mem_filter.mpr ⟨hf, by simpa using hm⟩, rfl⟩
  refine ⟨habs, ?_, ?_⟩
  · intro hmem
    unfold unmatchedFitGroups at hmem
    have := (List.mem_filter.mp hmem).2
    simp only [Bool.not_eq_true'] at this
    rw [List.any_eq_false] at this
    exact absurd hm (by simpa using this (cts, crs) hc)
  · intro m hok r hr
    rw [mergeRecords_ok_source_files config now _ _ m hok]
    apply List.mem_map.mpr
    exact ⟨r, List.mem_append.mpr (Or.inr (habs r hr)), rfl⟩

/-- Witness for C10: the FIT group at instant 30 sits within the 60-second
tolerance of both CSV groups (instants 0 and 50); instantiated at the
instant-0 group. -/
theorem C10_fit_group_absorption_witness :
    (∀ r ∈ [rfNear], r ∈ matchedFitRecs cfgStd (fitGroupsOf [rcGood, rcLater, rfNear]) 0) ∧
    ((30 : ℤ), [rfNear]) ∉ unmatchedFitGroups cfgStd
      (csvGroupsOf [rcGood, rcLater, rfNear]) (fitGroupsOf [rcGood, rcLater, rfNear]) ∧
    (∀ m, mergeRecords cfgStd 0 [rcGood]
        (matchedFitRecs cfgStd (fitGroupsOf [rcGood, rcLater, rfNear]) 0) =
        Except.ok m → ∀ r ∈ [rfNear], r.source_file_name ∈ m.source_files) :=
  C10_fit_group_absorption cfgStd 0 [rcGood, rcLater, rfNear] 30 [rfNear] 0 [rcGood]
    (by decide!) (by decide!) (by decide!)

/-- Pointwise-equivalent outputs have equal merged weight sequences. -/
theorem forall₂_measEquiv_weights (l1 l2 : List WeightMeasurement)
    (h : List.Forall₂ measEquiv l1 l2) :
    l1.map (fun m => m.weight_kg) = l2.map (fun m => m.weight_kg) := by
  induction h with
  | nil => rfl
  | cons hab _ ih => simp [ih, hab.2.2.1]

/-- CLAIM C5 — COUNTEREXAMPLE: two CSV records sharing the exact instant 0
with weights 70 and 80 consolidate to one measurement whose weight is the
first-arriving record's weight, so swapping arrival order flips the merged
weight from 70 to 80: arrival order does affect the output values, not merely
lineage-list ordering. -/
theorem C5_counterexample : ¬ C5Claim := by
  intro h
  cases h1 : consolidate cfgStd 0 [rcDup70, rcDup80] with
  | error e =>
    have hne : (consolidate cfgStd 0 [rcDup70, rcDup80]).toOption.isSome = true := by
      decide!
    rw [h1] at hne
    exact absurd hne (by simp [Except.toOption])
  | ok out1 =>
    cases h2 : consolidate cfgStd 0 [rcDup80, rcDup70] with
    | error e =>
      have hne : (consolidate cfgStd 0 [rcDup80, rcDup70]).toOption.isSome = true := by
        decide!
      rw [h2] at hne
      exact absurd hne (by simp [Except.toOption])
    | ok out2 =>
      have hf := h cfgStd 0 [rcDup70, rcDup80] [rcDup80, rcDup70] out1 out2
        (List.Perm.swap rcDup80 rcDup70 []) h1 h2
      have hw := forall₂_measEquiv_weights out1 out2 hf
      have e1 : (consolidate cfgStd 0 [rcDup70, rcDup80]).toOption.map
          (List.map (fun m => m.weight_kg)) = some [some 70] := by decide!
      have e2 : (consolidate cfgStd 0 [rcDup80, rcDup70]).toOption.map
          (List.map (fun m => m.weight_kg)) = some [some 80] := by decide!
      rw [h1] at e1
      rw [h2] at e2
      injection e1 with e1
      injection e2 with e2
      rw [hw, e2] at e1
      exact absurd e1 (by decide)

/-- Folding the grouping step over records whose timestamps are all fresh for
the accumulator and pairwise distinct appends one singleton group per
record. -/
theorem foldl_insertGrouped_fresh :
    ∀ (rs : List RawWeightRecord) (acc : List (ℤ × List RawWeightRecord)),
    (∀ r ∈ rs, acc.any (fun p => p.1 = r.timestamp) = false) →
    rs.Pairwise (fun a b => a.timestamp ≠ b.timestamp) →
    List.foldl insertGrouped acc rs = acc ++ rs.map (fun r => (r.timestamp, [r])) := by
  intro rs
  induction rs with
  | nil => intro acc _ _; simp
  | cons r rest ih =>
    intro acc hfresh hpair
    rw [List.foldl_cons]
    have hr : acc.any (fun p => p.1 = r.timestamp) = false :=
      hfresh r (List.mem_cons_self r rest)
    have hins : insertGrouped acc r = acc ++ [(r.timestamp, [r])] := by
      unfold insertGrouped
      rw [hr]
      simp
    rw [hins, ih (acc ++ [(r.timestamp, [r])]) ?_ (List.Pairwise.of_cons hpair)]
    · simp
    · intro s hs
      rw [List.any_append, hfresh s (List.mem_cons_of_mem r hs)]
      simp
      exact fun he => absurd he ((List.pairwise_cons.mp hpair).1 s hs)

/-- With pairwise-distinct timestamps the grouping is one singleton group per
record, in order. -/
theorem groupByTimestamp_of_distinct (rs : List RawWeightRecord)
    (h : rs.Pairwise (fun a b => a.timestamp ≠ b.timestamp)) :
    groupByTimestamp rs = rs.map (fun r => (r.timestamp, [r])) := by
  unfold groupByTimestamp
  rw [foldl_insertGrouped_fresh rs [] (by simp) h]
  simp

/-- Filtering one source side of a pairwise (timestamp, source)-distinct
record list leaves pairwise-distinct timestamps. -/
theorem pairwise_ts_filter (raw : List RawWeightRecord)
    (h : raw.Pairwise (fun a b =>
      a.timestamp ≠ b.timestamp ∨ a.source_type ≠ b.source_type))
    (t : SourceType) :
    (raw.filter (fun r => r.source_type = t)).Pairwise
      (fun a b => a.timestamp ≠ b.timestamp) := by
  have hp := List.Pairwise.sublist
    (List.filter_sublist (p := fun r => decide (r.source_type = t)) raw) h
  refine hp.imp_of_mem ?_
  intro a b ha hb hr
  rcases hr with hts | hst
  · exact hts
  · exfalso
    have hat := (List.mem_filter.mp ha).2
    have hbt := (List.mem_filter.mp hb).2
    simp only [decide_eq_true_eq] at hat hbt
    exact hst (hat.trans hbt.symm)

/-- Over singleton FIT groups, the matched records for a CSV instant are
exactly the FIT records within tolerance, in order. -/
theorem matchedFitRecs_singletons (config : ProcessingConfig) (t : ℤ) :
    ∀ fs : List RawWeightRecord,
    matchedFitRecs config (fs.map (fun r => (r.timestamp, [r]))) t =
      fs.filter (fun r =>
        timestampsMatch t r.timestamp config.timestamp_tolerance_seconds) := by
  intro fs
  induction fs with
  | nil => rfl
  | cons r rest ih =>
    unfold matchedFitRecs at ih ⊢
    cases hb : timestampsMatch t r.timestamp config.timestamp_tolerance_seconds <;>
      simp [hb, ih]

/-- Over singleton groups on both sides, the unmatched FIT groups are the
singleton groups of the FIT records matching no CSV group. -/
theorem unmatchedFitGroups_singletons (config : ProcessingConfig)
    (csvGroups : List (ℤ × List RawWeightRecord)) :
    ∀ fs : List RawWeightRecord,
    unmatchedFitGroups config csvGroups (fs.map (fun r => (r.timestamp, [r]))) =
      (fs.filter (fun r => !(csvGroups.any (fun c =>
        timestampsMatch c.1 r.timestamp config.timestamp_tolerance_seconds)))).map
        (fun r => (r.timestamp, [r])) := by
  intro fs
  induction fs with
  | nil => rfl
  | cons r rest ih =>
    unfold unmatchedFitGroups at ih ⊢
    cases hb : csvGroups.any (fun c =>
        timestampsMatch c.1 r.timestamp config.timestamp_tolerance_seconds) <;>
      simp [hb, ih]

/-- The CSV pass over singleton groups is `collectE` of the per-record
merge. -/
theorem mergeCsvGroups_map_singletons (config : ProcessingConfig) (now : ℤ)
    (fitGroups : List (ℤ × List RawWeightRecord)) :
    ∀ rs : List RawWeightRecord,
    mergeCsvGroups config now fitGroups (rs.map (fun r => (r.timestamp, [r]))) =
      collectE (fun r => mergeRecords config now [r]
        (matchedFitRecs config fitGroups r.timestamp)) rs := by
  intro rs
  induction rs with
  | nil => rfl
  | cons r rest ih =>
    simp only [List.map_cons]
    unfold mergeCsvGroups collectE
    rw [ih]
    cases mergeRecords config now [r] (matchedFitRecs config fitGroups r.timestamp) with
    | error e => rfl
    | ok m =>
      cases collectE (fun r => mergeRecords config now [r]
          (matchedFitRecs config fitGroups r.timestamp)) rest with
      | error e => rfl
      | ok ms => rfl

/-- The FIT-only pass over singleton groups is `collectE` of the per-record
merge. -/
theorem mergeFitGroups_map_singletons (config : ProcessingConfig) (now : ℤ) :
    ∀ rs : List RawWeightRecord,
    mergeFitGroups config now (rs.map (fun r => (r.timestamp, [r]))) =
      collectE (fun r => mergeRecords config now [] [r]) rs := by
  intro rs
  induction rs with
  | nil => rfl
  | cons r rest ih =>
    simp only [List.map_cons]
    unfold mergeFitGroups collectE
    rw [ih]
    cases mergeRecords config now [] [r] with
    | error e => rfl
    | ok m =>
      cases collectE (fun r => mergeRecords config now [] [r]) rest with
      | error e => rfl
      | ok ms => rfl

/-- Unfolding equation of `collectE` at a cons cell. -/
theorem collectE_cons {α β : Type} (f : α → Except String β) (a : α) (l : List α) :
    collectE f (a :: l) =
      match f a with
      | Except.error e => Except.error e
      | Except.ok b =>
        match collectE f l with
        | Except.error e => Except.error e
        | Except.ok bs => Except.ok (b :: bs) := rfl

/-- A `collectE` error is one of the per-element errors. -/
theorem collectE_error_mem {α β : Type} (f : α → Except String β) :
    ∀ (l : List α) (e : String), collectE f l = Except.error e →
    ∃ a ∈ l, f a = Except.error e := by
  intro l
  induction l with
  | nil => intro e h; exact absurd h (by simp [collectE])
  | cons a as ih =>
    intro e h
    rw [collectE_cons] at h
    split at h
    · rename_i ea hea
      injection h with h2
      subst h2
      exact ⟨a, List.mem_cons_self a as, hea⟩
    · split at h
      · rename_i ea hea
        injection h with h2
        subst h2
        obtain ⟨b, hb, hfb⟩ := ih _ hea
        exact ⟨b, List.mem_cons_of_mem a hb, hfb⟩
      · exact absurd h (by simp)

/-- `collectE` depends only on the function's values on the list. -/
theorem collectE_congr {α β : Type} (f g : α → Except String β) :
    ∀ l : List α, (∀ a ∈ l, f a = g a) → collectE f l = collectE g l := by
  intro l
  induction l with
  | nil => intro _; rfl
  | cons a as ih =>
    intro h
    rw [collectE_cons, collectE_cons,
      h a (List.mem_cons_self a as),
      ih (fun b hb => h b (List.mem_cons_of_mem a hb))]

/-- A successful `collectE` relates input and output pointwise. -/
theorem collectE_ok_forall₂ {α β : Type} (f : α → Except String β) :
    ∀ (l : List α) (bs : List β), collectE f l = Except.ok bs →
    List.Forall₂ (fun a b => f a = Except.ok b) l bs := by
  intro l
  induction l with
  | nil =>
    intro bs h
    unfold collectE at h
    injection h with h2
    subst h2
    exact List.Forall₂.nil
  | cons a as ih =>
    intro bs h
    rw [collectE_cons] at h
    split at h
    · exact absurd h (by simp)
    · rename_i b hb
      split at h
      · exact absurd h (by simp)
      · rename_i cs hcs
        injection h with h2
        subst h2
        exact List.Forall₂.cons hb (ih cs hcs)

/-- Running `collectE` over two orderings of the same multiset, when the only
possible per-element error message is `E`: both runs fail with `E`, or both
succeed with permuted outputs. -/
theorem collectE_perm {α β : Type} (f : α → Except String β) (E : String) :
    ∀ {l1 l2 : List α}, l1.Perm l2 →
    (∀ a ∈ l1, ∀ e, f a = Except.error e → e = E) →
    (collectE f l1 = Except.error E ∧ collectE f l2 = Except.error E) ∨
    (∃ b1 b2, collectE f l1 = Except.ok b1 ∧ collectE f l2 = Except.ok b2 ∧
      b1.Perm b2) := by
  intro l1 l2 hp
  induction hp with
  | nil =>
    intro _
    right
    exact ⟨[], [], rfl, rfl, List.Perm.nil⟩
  | cons x htail ih =>
    intro hE
    have hEt := fun a ha => hE a (List.mem_cons_of_mem x ha)
    cases hfx : f x with
    | error e =>
      rw [hE x (List.mem_cons_self x _) e hfx] at hfx
      left
      exact ⟨by simp only [collectE_cons, hfx], by simp only [collectE_cons, hfx]⟩
    | ok b =>
      rcases ih hEt with ⟨h1, h2⟩ | ⟨b1, b2, h1, h2, hb⟩
      · left
        exact ⟨by simp only [collectE_cons, hfx, h1],
          by simp only [collectE_cons, hfx, h2]⟩
      · right
        exact ⟨b :: b1, b :: b2, by simp only [collectE_cons, hfx, h1],
          by simp only [collectE_cons, hfx, h2], hb.cons b⟩
  | swap x y l =>
    intro hE
    have hEx := hE x (by simp)
    have hEy := hE y (by simp)
    have hEl : ∀ a ∈ l, ∀ e, f a = Except.error e → e = E :=
      fun a ha => hE a (by simp [ha])
    cases hfy : f y with
    | error ey =>
      rw [hEy ey hfy] at hfy
      cases hfx : f x with
      | error ex =>
        rw [hEx ex hfx] at hfx
        left
        exact ⟨by simp only [collectE_cons, hfy], by simp only [collectE_cons, hfx, hfy]⟩
      | ok bx =>
        left
        exact ⟨by simp only [collectE_cons, hfy],
          by simp only [collectE_cons, hfx, hfy]⟩
    | ok bv =>
      cases hfx : f x with
      | error ex =>
        rw [hEx ex hfx] at hfx
        left
        exact ⟨by simp only [collectE_cons, hfy, hfx],
          by simp only [collectE_cons, hfx]⟩
      | ok bx =>
        cases hcl : collectE f l with
        | error e =>
          have he : e = E := by
            obtain ⟨a, ha, hfa⟩ := collectE_error_mem f l e hcl
            exact hEl a ha e hfa
          rw [he] at hcl
          left
          exact ⟨by simp only [collectE_cons, hfy, hfx, hcl],
            by simp only [collectE_cons, hfx, hfy, hcl]⟩
        | ok bs =>
          right
          exact ⟨bv :: bx :: bs, bx :: bv :: bs,
            by simp only [collectE_cons, hfy, hfx, hcl],
            by simp only [collectE_cons, hfx, hfy, hcl],
            List.Perm.swap bx bv bs⟩
  | trans hp1 hp2 ih1 ih2 =>
    intro hE
    have hE2 : ∀ a ∈ _, ∀ e, f a = Except.error e → e = E :=
      fun a ha => hE a (hp1.mem_iff.mpr ha)
    rcases ih1 hE with ⟨h11, h12⟩ | ⟨b1, b2, h11, h12, hb12⟩
    · rcases ih2 hE2 with ⟨h21, h22⟩ | ⟨c2, c3, h21, h22, hc⟩
      · left
        exact ⟨h11, h22⟩
      · rw [h12] at h21
        exact absurd h21 (by simp)
    · rcases ih2 hE2 with ⟨h21, h22⟩ | ⟨c2, c3, h21, h22, hc⟩
      · rw [h12] at h21
        exact absurd h21 (by simp)
      · right
        rw [h12] at h21
        injection h21 with hbc
        subst hbc
        exact ⟨b1, c3, h11, h22, hb12.trans hc⟩

/-- Permuted lists of length at most one are equal. -/
theorem perm_le_one_eq {α : Type} {l1 l2 : List α} (hp : l1.Perm l2)
    (hl : l1.length ≤ 1) : l1 = l2 := by
  cases l1 with
  | nil => exact hp.nil_eq
  | cons a t =>
    cases t with
    | nil => exact List.singleton_perm.mp hp
    | cons b u => simp at hl

/-- A pairwise timestamp-distinct list all of whose members share a timestamp
has at most one element. -/
theorem length_le_one_of_distinct_same (l : List RawWeightRecord)
    (hd : l.Pairwise (fun a b => a.timestamp ≠ b.timestamp))
    (hs : ∀ a ∈ l, ∀ b ∈ l, a.timestamp = b.timestamp) : l.length ≤ 1 := by
  cases l with
  | nil => simp
  | cons a t =>
    cases t with
    | nil => simp
    | cons b u =>
      exfalso
      exact (List.pairwise_cons.mp hd).1 b (List.mem_cons_self b u)
        (hs a (by simp) b (by simp))

/-- `List.any` is invariant under permutation. -/
theorem any_perm {α : Type} {l1 l2 : List α} (hp : l1.Perm l2) (p : α → Bool) :
    l1.any p = l2.any p := by
  cases h2 : l2.any p
  · rw [List.any_eq_false] at h2 ⊢
    exact fun a ha => h2 a (hp.mem_iff.mp ha)
  · rw [List.any_eq_true] at h2 ⊢
    obtain ⟨a, ha, hpa⟩ := h2
    exact ⟨a, hp.mem_iff.mpr ha, hpa⟩

/-- Timestamp insertion preserves sortedness by timestamp. -/
theorem insertByTs_sorted (m : WeightMeasurement) :
    ∀ l : List WeightMeasurement,
    l.Pairwise (fun a b => a.timestamp ≤ b.timestamp) →
    (insertByTs m l).Pairwise (fun a b => a.timestamp ≤ b.timestamp) := by
  intro l
  induction l with
  | nil => intro _; simp [insertByTs]
  | cons x xs ih =>
    intro hs
    unfold insertByTs
    split
    · rename_i hlt
      rw [List.pairwise_cons]
      refine ⟨?_, ih (List.pairwise_cons.mp hs).2⟩
      intro a ha
      rw [(insertByTs_perm m xs).mem_iff] at ha
      rcases List.mem_cons.mp ha with rfl | ha2
      · exact le_of_lt hlt
      · exact (List.pairwise_cons.mp hs).1 a ha2
    · rename_i hnlt
      rw [List.pairwise_cons]
      refine ⟨?_, hs⟩
      intro a ha
      rcases List.mem_cons.mp ha with rfl | ha2
      · exact le_of_not_lt hnlt
      · exact le_trans (le_of_not_lt hnlt) ((List.pairwise_cons.mp hs).1 a ha2)

/-- The timestamp sort produces a list sorted by timestamp. -/
theorem sortByTimestamp_sorted :
    ∀ l : List WeightMeasurement,
    (sortByTimestamp l).Pairwise (fun a b => a.timestamp ≤ b.timestamp) := by
  intro l
  induction l with
  | nil => simp [sortByTimestamp]
  | cons x xs ih => exact insertByTs_sorted x (sortByTimestamp xs) ih

/-- Measurements produced pointwise from records with prescribed timestamps
have the records' timestamps. -/
theorem forall₂_timestamp_map {α : Type} {R : α → WeightMeasurement → Prop}
    (g : α → ℤ) (h : ∀ a b, R a b → b.timestamp = g a) :
    ∀ {l : List α} {bs : List WeightMeasurement}, List.Forall₂ R l bs →
    bs.map (fun m => m.timestamp) = l.map g := by
  intro l bs hf
  induction hf with
  | nil => rfl
  | cons hab _ ih => simp [ih, h _ _ hab]

/-- A measurement merged from a singleton CSV group carries the record's
timestamp. -/
theorem mergeRecords_singleton_csv_ts (config : ProcessingConfig) (now : ℤ)
    (r : RawWeightRecord) (X : List RawWeightRecord) (m : WeightMeasurement)
    (h : mergeRecords config now [r] X = Except.ok m) :
    m.timestamp = r.timestamp := by
  obtain ⟨first, rest, hall, hts⟩ := mergeRecords_ok_timestamp config now [r] X m h
  have : r :: X = first :: rest := by simpa using hall
  injection this with h1 _
  rw [hts, ← h1]

/-- A FIT-only measurement merged from a singleton group carries the record's
timestamp. -/
theorem mergeRecords_singleton_fit_ts (config : ProcessingConfig) (now : ℤ)
    (r : RawWeightRecord) (m : WeightMeasurement)
    (h : mergeRecords config now [] [r] = Except.ok m) :
    m.timestamp = r.timestamp := by
  obtain ⟨first, rest, hall, hts⟩ := mergeRecords_ok_timestamp config now [] [r] m h
  have : r :: ([] : List RawWeightRecord) = first :: rest := by simpa using hall
  injection this with h1 _
  rw [hts, ← h1]

/-- Two sorted permutations of a timestamp-distinct measurement list are
equal. -/
theorem sorted_perm_distinct_eq :
    ∀ (l1 l2 : List WeightMeasurement), l1.Perm l2 →
    l1.Pairwise (fun a b => a.timestamp ≤ b.timestamp) →
    l2.Pairwise (fun a b => a.timestamp ≤ b.timestamp) →
    (l1.map (fun m => m.timestamp)).Pairwise (fun a b => a ≠ b) →
    l1 = l2 := by
  intro l1
  induction l1 with
  | nil =>
    intro l2 hp _ _ _
    exact hp.nil_eq
  | cons a t1 ih =>
    intro l2 hp hs1 hs2 hd
    simp only [List.map_cons, List.pairwise_cons] at hd
    cases l2 with
    | nil => exact absurd (List.Perm.eq_nil hp) (by simp)
    | cons b t2 =>
      have hab : a = b := by
        by_contra hne
        have hbmem : b ∈ a :: t1 := hp.mem_iff.mpr (List.mem_cons_self b t2)
        have hamem : a ∈ b :: t2 := hp.mem_iff.mp (List.mem_cons_self a t1)
        have hb1 : b ∈ t1 := by
          rcases List.mem_cons.mp hbmem with h | h
          · exact absurd h.symm hne
          · exact h
        have ha2 : a ∈ t2 := by
          rcases List.mem_cons.mp hamem with h | h
          · exact absurd h hne
          · exact h
        have h1 : a.timestamp ≤ b.timestamp := (List.pairwise_cons.mp hs1).1 b hb1
        have h2 : b.timestamp ≤ a.timestamp := (List.pairwise_cons.mp hs2).1 a ha2
        exact hd.1 b.timestamp (List.mem_map.mpr ⟨b, hb1, rfl⟩) (le_antisymm h1 h2)
      subst hab
      rw [ih t2 hp.cons_inv (List.pairwise_cons.mp hs1).2
        (List.pairwise_cons.mp hs2).2 hd.2]

/-- `any` over singleton groups inspects the group keys, i.e. the record
timestamps. -/
theorem any_sing_map (cs : List RawWeightRecord) (t0 tol : ℤ) :
    (cs.map (fun r => (r.timestamp, ([r] : List RawWeightRecord)))).any
      (fun c => timestampsMatch c.1 t0 tol) =
    cs.any (fun c => timestampsMatch c.timestamp t0 tol) := by
  induction cs with
  | nil => rfl
  | cons a tl ih => simp [ih]

/-- Normal form of `consolidate` when each source side has pairwise-distinct
timestamps: the CSV pass merges each CSV record with the FIT records within
tolerance of it, the FIT pass merges each FIT record matching no CSV record,
and the results are combined. -/
theorem consolidate_nf (config : ProcessingConfig) (now : ℤ)
    (raw : List RawWeightRecord)
    (hc : (raw.filter (fun r => r.source_type = SourceType.csv)).Pairwise
      (fun a b => a.timestamp ≠ b.timestamp))
    (hf : (raw.filter (fun r => r.source_type = SourceType.fit)).Pairwise
      (fun a b => a.timestamp ≠ b.timestamp)) :
    consolidate config now raw =
      combineRes
        (collectE (fun c => mergeRecords config now [c]
          ((raw.filter (fun r => r.source_type = SourceType.fit)).filter
            (fun s => timestampsMatch c.timestamp s.timestamp
              config.timestamp_tolerance_seconds)))
          (raw.filter (fun r => r.source_type = SourceType.csv)))
        (collectE (fun r => mergeRecords config now [] [r])
          ((raw.filter (fun r => r.source_type = SourceType.fit)).filter
            (fun s => !((raw.filter (fun r => r.source_type = SourceType.csv)).any
              (fun c => timestampsMatch c.timestamp s.timestamp
                config.timestamp_tolerance_seconds))))) := by
  unfold consolidate csvGroupsOf fitGroupsOf combineRes
  dsimp only
  rw [groupByTimestamp_of_distinct _ hc, groupByTimestamp_of_distinct _ hf]
  rw [mergeCsvGroups_map_singletons, unmatchedFitGroups_singletons,
    mergeFitGroups_map_singletons]
  rw [collectE_congr
    (fun c => mergeRecords config now [c]
      (matchedFitRecs config
        ((raw.filter (fun r => r.source_type = SourceType.fit)).map
          (fun r => (r.timestamp, [r]))) c.timestamp))
    (fun c => mergeRecords config now [c]
      ((raw.filter (fun r => r.source_type = SourceType.fit)).filter
        (fun s => timestampsMatch c.timestamp s.timestamp
          config.timestamp_tolerance_seconds)))
    (raw.filter (fun r => r.source_type = SourceType.csv))
    (fun c _ => by dsimp only; rw [matchedFitRecs_singletons])]
  have hfilter_eq :
      (raw.filter (fun r => r.source_type = SourceType.fit)).filter
        (fun s => !(((raw.filter (fun r => r.source_type = SourceType.csv)).map
          (fun r => (r.timestamp, [r]))).any
            (fun c => timestampsMatch c.1 s.timestamp
              config.timestamp_tolerance_seconds))) =
      (raw.filter (fun r => r.source_type = SourceType.fit)).filter
        (fun s => !((raw.filter (fun r => r.source_type = SourceType.csv)).any
          (fun c => timestampsMatch c.timestamp s.timestamp
            config.timestamp_tolerance_seconds))) :=
    List.filter_congr (fun s _ => by rw [any_sing_map])
  rw [hfilter_eq]

/-- CLAIM C5 (amended) — Arrival order is immaterial only on restricted
inputs: when the timestamp tolerance is non-negative, no two records of the
same source share an exact timestamp, and no CSV instant is within tolerance
of two distinct FIT instants, consolidating any two orderings of the same
multiset of raw records yields literally identical results (values,
conflicts, ids, lineage and order included).  The counterexample shows the
first restriction is necessary: with duplicate same-source timestamps the
merged values depend on arrival order. -/
theorem C5_amended_order_independence (config : ProcessingConfig) (now : ℤ)
    (raw1 raw2 : List RawWeightRecord)
    (htol : 0 ≤ config.timestamp_tolerance_seconds)
    (hdistinct : raw1.Pairwise (fun a b =>
      a.timestamp ≠ b.timestamp ∨ a.source_type ≠ b.source_type))
    (huniq : ∀ c ∈ raw1, ∀ r1 ∈ raw1, ∀ r2 ∈ raw1,
      c.source_type = SourceType.csv → r1.source_type = SourceType.fit →
      r2.source_type = SourceType.fit →
      timestampsMatch c.timestamp r1.timestamp
        config.timestamp_tolerance_seconds = true →
      timestampsMatch c.timestamp r2.timestamp
        config.timestamp_tolerance_seconds = true →
      r1.timestamp = r2.timestamp)
    (hperm : raw1.Perm raw2) :
    consolidate config now raw1 = consolidate config now raw2 := by
  have hdist2 : raw2.Pairwise (fun a b =>
      a.timestamp ≠ b.timestamp ∨ a.source_type ≠ b.source_type) :=
    (hperm.pairwise_iff (fun hab => hab.imp Ne.symm Ne.symm)).mp hdistinct
  have hc1 := pairwise_ts_filter raw1 hdistinct SourceType.csv
  have hf1 := pairwise_ts_filter raw1 hdistinct SourceType.fit
  have hc2 := pairwise_ts_filter raw2 hdist2 SourceType.csv
  have hf2 := pairwise_ts_filter raw2 hdist2 SourceType.fit
  have hpc : (raw1.filter (fun r => r.source_type = SourceType.csv)).Perm
      (raw2.filter (fun r => r.source_type = SourceType.csv)) := hperm.filter _
  have hpf : (raw1.filter (fun r => r.source_type = SourceType.fit)).Perm
      (raw2.filter (fun r => r.source_type = SourceType.fit)) := hperm.filter _
  have hmatch_eq : ∀ c ∈ raw1.filter (fun r => r.source_type = SourceType.csv),
      (raw1.filter (fun r => r.source_type = SourceType.fit)).filter
        (fun s => timestampsMatch c.timestamp s.timestamp
          config.timestamp_tolerance_seconds) =
      (raw2.filter (fun r => r.source_type = SourceType.fit)).filter
        (fun s => timestampsMatch c.timestamp s.timestamp
          config.timestamp_tolerance_seconds) := by
    intro c hcmem
    apply perm_le_one_eq (hpf.filter _)
    apply length_le_one_of_distinct_same
    · exact List.Pairwise.sublist (List.filter_sublist _) hf1
    · intro a ha b hb
      have ha1 := List.mem_filter.mp ha
      have ha2 := List.mem_filter.mp ha1.1
      have hb1 := List.mem_filter.mp hb
      have hb2 := List.mem_filter.mp hb1.1
      have hcm := List.mem_filter.mp hcmem
      exact huniq c hcm.1 a ha2.1 b hb2.1 (by simpa using hcm.2)
        (by simpa using ha2.2) (by simpa using hb2.2)
        (by simpa using ha1.2) (by simpa using hb1.2)
  rw [consolidate_nf config now raw1 hc1 hf1, consolidate_nf config now raw2 hc2 hf2]
  have hcsv2 : collectE (fun c => mergeRecords config now [c]
      ((raw2.filter (fun r => r.source_type = SourceType.fit)).filter
        (fun s => timestampsMatch c.timestamp s.timestamp
          config.timestamp_tolerance_seconds)))
      (raw2.filter (fun r => r.source_type = SourceType.csv)) =
      collectE (fun c => mergeRecords config now [c]
      ((raw1.filter (fun r => r.source_type = SourceType.fit)).filter
        (fun s => timestampsMatch c.timestamp s.timestamp
          config.timestamp_tolerance_seconds)))
      (raw2.filter (fun r => r.source_type = SourceType.csv)) :=
    collectE_congr _ _ _
      (fun c hcm => by rw [← hmatch_eq c (hpc.mem_iff.mpr hcm)])
  rw [hcsv2]
  have hpred : (raw2.filter (fun r => r.source_type = SourceType.fit)).filter
      (fun s => !((raw2.filter (fun r => r.source_type = SourceType.csv)).any
        (fun c => timestampsMatch c.timestamp s.timestamp
          config.timestamp_tolerance_seconds))) =
      (raw2.filter (fun r => r.source_type = SourceType.fit)).filter
      (fun s => !((raw1.filter (fun r => r.source_type = SourceType.csv)).any
        (fun c => timestampsMatch c.timestamp s.timestamp
          config.timestamp_tolerance_seconds))) :=
    List.filter_congr (fun s _ => by rw [any_perm hpc])
  rw [hpred]
  have hEcsv : ∀ c ∈ raw1.filter (fun r => r.source_type = SourceType.csv),
      ∀ e, mergeRecords config now [c]
        ((raw1.filter (fun r => r.source_type = SourceType.fit)).filter
          (fun s => timestampsMatch c.timestamp s.timestamp
            config.timestamp_tolerance_seconds)) = Except.error e →
      e = "Cannot consolidate record without weight_kg" :=
    fun c _ e he => mergeRecords_error_msg config now [c] _ e (by simp) he
  have hupf : ((raw1.filter (fun r => r.source_type = SourceType.fit)).filter
      (fun s => !((raw1.filter (fun r => r.source_type = SourceType.csv)).any
        (fun c => timestampsMatch c.timestamp s.timestamp
          config.timestamp_tolerance_seconds)))).Perm
      ((raw2.filter (fun r => r.source_type = SourceType.fit)).filter
      (fun s => !((raw1.filter (fun r => r.source_type = SourceType.csv)).any
        (fun c => timestampsMatch c.timestamp s.timestamp
          config.timestamp_tolerance_seconds)))) := hpf.filter _
  have hEfit : ∀ r ∈ (raw1.filter (fun r => r.source_type = SourceType.fit)).filter
      (fun s => !((raw1.filter (fun r => r.source_type = SourceType.csv)).any
        (fun c => timestampsMatch c.timestamp s.timestamp
          config.timestamp_tolerance_seconds))),
      ∀ e, mergeRecords config now [] [r] = Except.error e →
      e = "Cannot consolidate record without weight_kg" :=
    fun r _ e he => mergeRecords_error_msg config now [] [r] e (by simp) he
  rcases collectE_perm _ "Cannot consolidate record without weight_kg" hpc hEcsv with
    ⟨h1, h2⟩ | ⟨b1, b2, h1, h2, hb⟩
  · rw [h1, h2]
    rfl
  · rw [h1, h2]
    rcases collectE_perm _ "Cannot consolidate record without weight_kg" hupf hEfit with
      ⟨g1, g2⟩ | ⟨c1, c2, g1, g2, hcp⟩
    · rw [g1, g2]
      rfl
    · rw [g1, g2]
      show Except.ok (sortByTimestamp (b1 ++ c1)) = Except.ok (sortByTimestamp (b2 ++ c2))
      have hmap1 : b1.map (fun m => m.timestamp) =
          (raw1.filter (fun r => r.source_type = SourceType.csv)).map
            (fun r => r.timestamp) :=
        forall₂_timestamp_map _
          (fun a b hab => mergeRecords_singleton_csv_ts config now a _ b hab)
          (collectE_ok_forall₂ (fun c => mergeRecords config now [c]
            ((raw1.filter (fun r => r.source_type = SourceType.fit)).filter
              (fun s => timestampsMatch c.timestamp s.timestamp
                config.timestamp_tolerance_seconds))) _ _ h1)
      have hmap2 : c1.map (fun m => m.timestamp) =
          ((raw1.filter (fun r => r.source_type = SourceType.fit)).filter
            (fun s => !((raw1.filter (fun r => r.source_type = SourceType.csv)).any
              (fun c => timestampsMatch c.timestamp s.timestamp
                config.timestamp_tolerance_seconds)))).map (fun r => r.timestamp) :=
        forall₂_timestamp_map _
          (fun a b hab => mergeRecords_singleton_fit_ts config now a b hab)
          (collectE_ok_forall₂ (fun r => mergeRecords config now [] [r]) _ _ g1)
      have hdistinct_bc : ((b1 ++ c1).map (fun m => m.timestamp)).Pairwise
          (fun a b => a ≠ b) := by
        rw [List.map_append, hmap1, hmap2, List.pairwise_append]
        refine ⟨List.pairwise_map.mpr hc1,
          List.pairwise_map.mpr (List.Pairwise.sublist (List.filter_sublist _) hf1), ?_⟩
        intro x hx y hy
        obtain ⟨cx, hcx, rfl⟩ := List.mem_map.mp hx
        obtain ⟨sy, hsy, rfl⟩ := List.mem_map.mp hy
        intro heq
        have hmatch : timestampsMatch cx.timestamp sy.timestamp
            config.timestamp_tolerance_seconds = true := by
          unfold timestampsMatch
          rw [heq]
          simp only [sub_self, abs_zero]
          exact decide_eq_true htol
        have hany : ((raw1.filter (fun r => r.source_type = SourceType.csv)).any
            (fun c => timestampsMatch c.timestamp sy.timestamp
              config.timestamp_tolerance_seconds)) = true :=
          List.any_eq_true.mpr ⟨cx, hcx, hmatch⟩
        have hflt := (List.mem_filter.mp hsy).2
        rw [hany] at hflt
        simp at hflt
      congr 1
      apply sorted_perm_distinct_eq
      · exact (sortByTimestamp_perm _).trans ((hb.append hcp).trans
          (sortByTimestamp_perm _).symm)
      · exact sortByTimestamp_sorted _
      · exact sortByTimestamp_sorted _
      · exact (List.Perm.pairwise_iff (fun h => Ne.symm h)
          ((sortByTimestamp_perm (b1 ++ c1)).map (fun m => m.timestamp))).mpr
          hdistinct_bc

/-- Witness for the amended C5: a CSV record at instant 0 and a FIT record at
instant 30 (within tolerance, distinct timestamps, unique matching)
consolidate identically in either arrival order. -/
theorem C5_amended_order_independence_witness :
    consolidate cfgStd 0 [rcGood, rfNear] = consolidate cfgStd 0 [rfNear, rcGood] :=
  C5_amended_order_independence cfgStd 0 [rcGood, rfNear] [rfNear, rcGood]
    (by decide) (by decide!) (by decide!) (List.Perm.swap rfNear rcGood [])

end PHL
